import Mathlib

/-!
Verification of the FinShield Bank Statement Repair & Forensic Validation
Engine.  The definitions below are a shallow embedding of
`backend/app/services/excel_normalizer.py` (the statement normalizer) and
`backend/app/services/validation.py` (the forensic validation engine).
Numbers are modelled by `ℚ`, spreadsheet cells and dynamically typed field
values by small inductive types, and the external `dateutil` parser by an
executable multi-format date parser.
-/

set_option maxHeartbeats 1000000
set_option maxRecDepth 10000

attribute [local semireducible] Rat.add Rat.sub Rat.mul Rat.inv Rat.ofScientific

/-! ## String helpers (Python `str` operations) -/

/-- Python `str.lower()` (ASCII). -/
def sLower (s : String) : String := String.mk (s.toList.map Char.toLower)

/-- Python `str.upper()` (ASCII). -/
def sUpper (s : String) : String := String.mk (s.toList.map Char.toUpper)

/-- Strip leading and trailing whitespace from a character list. -/
def pyStripL (l : List Char) : List Char :=
  ((l.dropWhile Char.isWhitespace).reverse.dropWhile Char.isWhitespace).reverse

/-- Python `str.strip()`. -/
def pyStrip (s : String) : String := String.mk (pyStripL s.toList)

/-- Split a character list at every separator character (keeping empty
segments, as `str.split` with explicit separators does). -/
def splitOnPred (l : List Char) (p : Char → Bool) : List (List Char) :=
  match l with
  | [] => [[]]
  | c :: r =>
    let rest := splitOnPred r p
    if p c then [] :: rest
    else
      match rest with
      | h :: t => (c :: h) :: t
      | [] => [[c]]

/-- Does the character list start with the given pattern? -/
def startsWithL : List Char → List Char → Bool
  | _, [] => true
  | [], _ :: _ => false
  | h :: hs, n :: ns => h == n && startsWithL hs ns

/-- Does `hay` contain `nd` as a contiguous sublist? -/
def hasSubL : List Char → List Char → Bool
  | [], nd => startsWithL [] nd
  | h :: t, nd => startsWithL (h :: t) nd || hasSubL t nd

/-- Python `needle in hay` on strings. -/
def strContains (hay nd : String) : Bool := hasSubL hay.toList nd.toList

/-- Collapse runs of spaces to a single space (`re.sub(r"\s+", " ", ...)`
after every whitespace-like character has been replaced by a space). -/
def collapseWsAux : Bool → List Char → List Char
  | _, [] => []
  | lastSp, c :: r =>
    if c = ' ' then (if lastSp then collapseWsAux true r else ' ' :: collapseWsAux true r)
    else c :: collapseWsAux false r

/-! ## Numeric parsing (Python `float(...)`) -/

/-- Digits to a natural number. -/
def digitsToNat (l : List Char) : ℕ := l.foldl (fun a c => a * 10 + (c.toNat - 48)) 0

/-- Parse an unsigned decimal literal (`123`, `123.45`, `.5`, `5.`). -/
def parseUnsigned (l : List Char) : Option ℚ :=
  let intPart := l.takeWhile Char.isDigit
  let rest := l.dropWhile Char.isDigit
  match rest with
  | [] => if intPart = [] then none else some (digitsToNat intPart : ℚ)
  | '.' :: frac =>
    if frac.all Char.isDigit && !(intPart = [] && frac = []) then
      some ((digitsToNat intPart : ℚ) + (digitsToNat frac : ℚ) / (10 ^ frac.length))
    else none
  | _ => none

/-- Python `float(s)` on a string (decimal literals; exponent forms are not
used by the repository's data and are not modelled). -/
def pyFloat (s : String) : Option ℚ :=
  match pyStripL s.toList with
  | '-' :: rest => (parseUnsigned rest).map (fun q => -q)
  | '+' :: rest => parseUnsigned rest
  | l => parseUnsigned l

/-- Round half-to-even at `k` decimal places, as Python `round(x, k)`. -/
def pyRound (q : ℚ) (k : ℕ) : ℚ :=
  let m := q * (10 ^ k : ℚ)
  let f : ℤ := ⌊m⌋
  let r := m - (f : ℚ)
  let n : ℤ :=
    if r < 1/2 then f else if 1/2 < r then f + 1 else (if f % 2 = 0 then f else f + 1)
  (n : ℚ) / (10 ^ k : ℚ)

/-- Absolute value on `ℚ` written so that it reduces in the kernel. -/
def qAbs (q : ℚ) : ℚ := if q < 0 then -q else q

/-! ## Dates.

The repository delegates date parsing to `dateutil.parser.parse`, an
external library.  Modelled from the spec: "safe date parsing
(multi-format fallback)" — an executable parser recognising ISO
(`YYYY-MM-DD`) and day-first (`DD-MM-YYYY`, `DD/MM/YYYY`) forms.  A date is
encoded as the natural number `y*10000 + m*100 + d`, which is
order-isomorphic to calendar order on valid dates. -/

/-- Zero-padded two-digit rendering. -/
def pad2 (n : ℕ) : String := if n < 10 then "0" ++ toString n else toString n

/-- Zero-padded four-digit rendering. -/
def pad4 (n : ℕ) : String :=
  if n < 10 then "000" ++ toString n
  else if n < 100 then "00" ++ toString n
  else if n < 1000 then "0" ++ toString n
  else toString n

/-- Render an encoded date as ISO `YYYY-MM-DD` (Python `strftime("%Y-%m-%d")`,
`date().isoformat()`). -/
def isoRender (n : ℕ) : String :=
  pad4 (n / 10000) ++ "-" ++ pad2 (n / 100 % 100) ++ "-" ++ pad2 (n % 100)

/-- Encode a (year, month, day) triple. -/
def encodeDate (y m d : ℕ) : ℕ := y * 10000 + m * 100 + d

/-- Modelled from the spec: multi-format fallback date parsing (the external
`dateutil` parser).  Accepts `YYYY-MM-DD` and day-first `DD-MM-YYYY` /
`DD/MM/YYYY` (with the month/day swap `dateutil` applies when the
day-first reading is impossible). -/
def parseDateStr (s : String) : Option ℕ :=
  let parts := splitOnPred (pyStripL s.toList) (fun c => c = '-' || c = '/')
  match parts with
  | [p1, p2, p3] =>
    if (p1 ++ p2 ++ p3).all Char.isDigit && p1 ≠ [] && p2 ≠ [] && p3 ≠ [] then
      if p1.length = 4 then
        let y := digitsToNat p1; let m := digitsToNat p2; let d := digitsToNat p3
        if 1 ≤ m && m ≤ 12 && 1 ≤ d && d ≤ 31 then some (encodeDate y m d) else none
      else if p3.length = 4 || p3.length = 2 then
        let d := digitsToNat p1; let m := digitsToNat p2
        let y := if p3.length = 2 then 2000 + digitsToNat p3 else digitsToNat p3
        if 1 ≤ m && m ≤ 12 && 1 ≤ d && d ≤ 31 then some (encodeDate y m d)
        else if 1 ≤ d && d ≤ 12 && 1 ≤ m && m ≤ 31 then some (encodeDate y d m)
        else none
      else none
    else none
  | _ => none

/-! ## Dynamic values.

`Val` models the dynamically typed values found in the "extracted fields"
record handed to `run_validations` (JSON scalars: absent/None, strings,
numbers). -/

inductive Val : Type
  | none : Val
  | str : String → Val
  | num : ℚ → Val
deriving DecidableEq, Repr

/-- Render a `ℚ` the way the repository's numbers print (integers without a
decimal point; claims never inspect non-integral renderings). -/
def qRender (q : ℚ) : String :=
  if q.den = 1 then toString q.num else toString q.num ++ "/" ++ toString q.den

/-- Python truthiness of a value. -/
def pyTruthy : Val → Bool
  | .none => false
  | .str s => s ≠ ""
  | .num q => q ≠ 0

/-- Python `str(v)` (unguarded). -/
def pyStrRaw : Val → String
  | .none => "None"
  | .str s => s
  | .num q => qRender q

/-- Python `str(v or "")`. -/
def pyStrOrEmpty (v : Val) : String := if pyTruthy v then pyStrRaw v else ""

/-- `validation._safe_number`: `None` for missing/empty, else `float(value)`
with exceptions mapped to `None`. -/
def safeNumber : Val → Option ℚ
  | .none => none
  | .str s => if s = "" then none else pyFloat s
  | .num q => some q

/-- `validation._parse_date`: `None` for falsy values, else parse `str(value)`. -/
def parseDateVal (v : Val) : Option ℕ :=
  if pyTruthy v then parseDateStr (pyStrRaw v) else none

/-- `validation._compare_close`. -/
def compareClose (a b : Option ℚ) (tolerance : ℚ) : Bool :=
  match a, b with
  | some x, some y => qAbs (x - y) ≤ tolerance
  | _, _ => false

/-- First decimal digit of a positive natural number, by fuel recursion so
that the definition reduces in the kernel. -/
def firstDigitAux : ℕ → ℕ → ℕ
  | 0, n => n
  | fuel + 1, n => if n < 10 then n else firstDigitAux fuel (n / 10)

/-- First decimal digit of a positive natural number. -/
def firstDigit (n : ℕ) : ℕ := firstDigitAux n n

/-- `validation._leading_digit`: `None` if `|v| < 1`, else the leading digit
of the integer part. -/
def leadingDigit (q : ℚ) : Option ℕ :=
  let a := qAbs q
  if a < 1 then none else some (firstDigit (Int.toNat ⌊a⌋))

/-- `validation._normalize_counterparty`: lower-case, replace every
non-letter by a space, collapse whitespace, strip. -/
def normalizeCounterparty (s : String) : String :=
  if s = "" then ""
  else
    pyStrip (String.mk (collapseWsAux false
      ((sLower s).toList.map (fun c => if c.isAlpha then c else ' '))))

/-- Ascending insertion into a sorted list. -/
def insertQ (x : ℚ) : List ℚ → List ℚ
  | [] => [x]
  | y :: r => if x ≤ y then x :: y :: r else y :: insertQ x r

/-- Python `sorted` on rationals. -/
def sortQ (l : List ℚ) : List ℚ := l.foldr insertQ []

/-- `validation._percentile` (linear interpolation between closest ranks). -/
def percentile (values : List ℚ) (pct : ℚ) : Option ℚ :=
  match values with
  | [] => none
  | _ =>
    let sv := sortQ values
    let n := sv.length
    if pct ≤ 0 then sv.head?
    else if 100 ≤ pct then sv.getLast?
    else
      let k : ℚ := ((n - 1 : ℕ) : ℚ) * (pct / 100)
      let f : ℕ := Int.toNat ⌊k⌋
      let c := min (f + 1) (n - 1)
      if f = c then sv.get? f
      else
        match sv.get? f, sv.get? c with
        | some vf, some vc => some (vf + (vc - vf) * (k - (f : ℚ)))
        | _, _ => none

/-! ## Regular-expression stand-ins (executable scanners for the fixed
patterns used by the source). -/

/-- `re.search(r"[A-Za-z]{3}", s)`: three consecutive ASCII letters. -/
def hasAlpha3 (s : String) : Bool :=
  s.toList.tails.any (fun t =>
    match t with
    | a :: b :: c :: _ => a.isAlpha && b.isAlpha && c.isAlpha
    | _ => false)

/-- `re.search(r"\d{4}-\d{2}", s)`. -/
def isoScanPat (s : String) : Bool :=
  s.toList.tails.any (fun t =>
    match t with
    | a :: b :: c :: d :: '-' :: e :: f :: _ =>
      a.isDigit && b.isDigit && c.isDigit && d.isDigit && e.isDigit && f.isDigit
    | _ => false)

/-- Consume exactly `n` digits. -/
def digitsN : ℕ → List Char → Option (List Char)
  | 0, l => some l
  | _ + 1, [] => none
  | n + 1, c :: r => if c.isDigit then digitsN n r else none

/-- Consume one `-` or `/` separator. -/
def sepParse : List Char → Option (List Char)
  | [] => none
  | c :: r => if c = '-' || c = '/' then some r else none

/-- The source's numeric-date search: one or two digits, a dash-or-slash
separator, one or two digits, a separator, then at least two digits (regex
backtracking expressed as a choice of digit-group widths). -/
def numScanPat (s : String) : Bool :=
  s.toList.tails.any (fun t =>
    [2, 1].any (fun n1 => [2, 1].any (fun n2 =>
      ((((digitsN n1 t).bind sepParse).bind (digitsN n2)).bind sepParse).bind (digitsN 2)
        |>.isSome)))

/-- `re.search(r"unrings\s+icease", s)`. -/
def patUnrings (s : String) : Bool :=
  s.toList.tails.any (fun t =>
    startsWithL t "unrings".toList &&
      (let rest := t.drop 7
       let rest' := rest.dropWhile Char.isWhitespace
       decide (rest'.length < rest.length) && startsWithL rest' "icease".toList))

/-- `re.search(r"pherate.*vumar", s)`. -/
def patPherate (s : String) : Bool :=
  s.toList.tails.any (fun t =>
    startsWithL t "pherate".toList && hasSubL (t.drop 7) "vumar".toList)

/-- `re.search(r"0511\s*nn", s)`. -/
def pat0511 (s : String) : Bool :=
  s.toList.tails.any (fun t =>
    startsWithL t "0511".toList &&
      startsWithL ((t.drop 4).dropWhile Char.isWhitespace) "nn".toList)

/-- `re.search(r"\$\d+", s)`. -/
def patDollar (s : String) : Bool :=
  s.toList.tails.any (fun t =>
    match t with
    | '$' :: c :: _ => c.isDigit
    | _ => false)

/-! ## Validation-engine data model -/

/-- One validation finding (`Issue`): a Python dict with a fixed set of
possible keys, modelled as optional fields (absent key = `none`). -/
structure Issue : Type where
  field : String
  message : String
  severity : String
  expected : Option ℚ := none
  actual : Option ℚ := none
  ratioVal : Option ℚ := none
  medianBalance : Option ℚ := none
  closingBalanceV : Option ℚ := none
  previousClosing : Option ℚ := none
  currentOpening : Option ℚ := none
  roundUnitV : Option ℚ := none
  count : Option ℕ := none
  roundCount : Option ℕ := none
  totalCount : Option ℕ := none
  uniqueDescs : Option ℕ := none
  currencyV : Option String := none
  examples : Option (List String) := none
deriving DecidableEq, Repr

/-- The `consistency` record of a `ValidationResult`. -/
structure Consistency : Type where
  consistent : Bool
  issues : List Issue
deriving DecidableEq, Repr

/-- One transaction entry of the extracted-fields record. -/
structure TxF : Type where
  date : Val := .none
  description : Val := .none
  amount : Val := .none
  balance : Val := .none
deriving DecidableEq, Repr

/-- The extracted-fields record handed to `run_validations` (named optional
fields plus a typed list of transaction records, per the spec's data
model). -/
structure Extracted : Type where
  currency : Val := .none
  currencyAlt : Val := .none
  opening : Val := .none
  closing : Val := .none
  openingRaw : Val := .none
  closingRaw : Val := .none
  bankName : Val := .none
  accountNumber : Val := .none
  subtotal : Val := .none
  tax : Val := .none
  total : Val := .none
  invoiceDate : Val := .none
  dueDate : Val := .none
  grossSalary : Val := .none
  netSalary : Val := .none
  deductions : Val := .none
  transactions : List TxF := []
deriving DecidableEq, Repr

/-- The extracted fields of the prior statement returned by the injected
`_find_previous_statement` collaborator (only its closing balance is read). -/
structure PrevStatement : Type where
  closingBalance : Val
deriving DecidableEq, Repr

/-- `CURRENCY_PROFILES` entry. -/
structure CurrencyProfile : Type where
  roundUnit : ℚ
  minRound : ℚ
  outlierFactor : ℚ
deriving DecidableEq, Repr

/-- `CURRENCY_PROFILES`. -/
def currencyProfiles : List (String × CurrencyProfile) :=
  [("INR", ⟨100, 100, 50⟩), ("USD", ⟨100, 50, 50⟩), ("EUR", ⟨100, 50, 50⟩),
   ("GBP", ⟨100, 50, 50⟩), ("JPY", ⟨1000, 1000, 100⟩), ("AED", ⟨100, 50, 50⟩),
   ("SGD", ⟨100, 50, 50⟩), ("AUD", ⟨100, 50, 50⟩), ("CAD", ⟨100, 50, 50⟩),
   ("CNY", ⟨100, 100, 50⟩)]

/-- `DEFAULT_PROFILE`. -/
def defaultProfile : CurrencyProfile := ⟨100, 100, 50⟩

/-- `validation._get_currency_profile`. -/
def getCurrencyProfile (c : String) : CurrencyProfile :=
  ((currencyProfiles.find? (fun kv => kv.1 = c)).map (·.2)).getD defaultProfile

/-- The ordered currency-symbol vote table of `validation._detect_currency`. -/
def symbolMap : List (String × String) :=
  [("₹", "INR"), ("Rs", "INR"), ("INR", "INR"), ("$", "USD"), ("USD", "USD"),
   ("€", "EUR"), ("EUR", "EUR"), ("£", "GBP"), ("GBP", "GBP"), ("¥", "JPY"),
   ("JPY", "JPY"), ("AED", "AED"), ("SGD", "SGD"), ("A$", "AUD"), ("AUD", "AUD"),
   ("C$", "CAD"), ("CAD", "CAD"), ("CN¥", "CNY"), ("CNY", "CNY")]

/-- Add `w` votes for `code` to an insertion-ordered tally. -/
def addVote (l : List (String × ℕ)) (code : String) (w : ℕ) : List (String × ℕ) :=
  if l.any (fun kv => kv.1 = code) then
    l.map (fun kv => if kv.1 = code then (kv.1, kv.2 + w) else kv)
  else l ++ [(code, w)]

/-- Votes contributed by one text (every matching symbol votes). -/
def voteText (l : List (String × ℕ)) (text : String) (w : ℕ) : List (String × ℕ) :=
  symbolMap.foldl (fun acc sc => if strContains text sc.1 then addVote acc sc.2 w else acc) l

/-- `max(votes, key=...)`: the first key attaining the maximal vote count. -/
def argmaxVote (l : List (String × ℕ)) : Option String :=
  (l.foldl (fun best kv =>
    match best with
    | Option.none => some kv
    | some b => if b.2 < kv.2 then some kv else some b) Option.none).map (·.1)

/-- `validation._detect_currency`.  (The final magnitude-heuristic fallback
of the source returns `"INR"` on both of its branches, so it is modelled
as the constant it is.) -/
def detectCurrency (ext : Extracted) : String :=
  let explicitV := if pyTruthy ext.currency then ext.currency else ext.currencyAlt
  let code := pyStrip (sUpper (pyStrRaw explicitV))
  if pyTruthy explicitV && (currencyProfiles.any (fun kv => kv.1 = code)) then code
  else
    let votes := (ext.transactions.take 30).foldl
      (fun acc tx => voteText acc (pyStrOrEmpty tx.description) 1) []
    let votes := [ext.openingRaw, ext.closingRaw, ext.bankName].foldl
      (fun acc v => voteText acc (pyStrOrEmpty v) 5) votes
    match argmaxVote votes with
    | some c => c
    | Option.none => "INR"

/-! ## Forensic validation engine (`validation.run_validations`).

The source appends issues to shared `errors` / `warnings` lists in textual
order; here every detector is a function returning the list of issues it
contributes, and the result lists are their concatenation in the same
order. -/

/-- Amounts that parse (`tx_amounts`). -/
def txAmounts (txs : List TxF) : List ℚ := txs.filterMap (fun t => safeNumber t.amount)

/-- Parsed balances, one slot per row (`tx_balances`). -/
def txBalances (txs : List TxF) : List (Option ℚ) := txs.map (fun t => safeNumber t.balance)

/-- Parsed dates, one slot per row (`tx_dates`). -/
def txDates (txs : List TxF) : List (Option ℕ) := txs.map (fun t => parseDateVal t.date)

/-- Raw date strings (`tx_date_raw`). -/
def txDateRaw (txs : List TxF) : List String := txs.map (fun t => pyStrOrEmpty t.date)

/-- Raw descriptions (`tx_descriptions`). -/
def txDescs (txs : List TxF) : List String := txs.map (fun t => pyStrOrEmpty t.description)

/-- `tx_total`: sum of the parseable amounts. -/
def txTotal (txs : List TxF) : ℚ := (txAmounts txs).sum

/-- `date_sequence_violations`: count of parsed dates earlier than the last
previously seen parsed date. -/
def dateViolations (txs : List TxF) : ℕ :=
  (txs.foldl (fun (st : Option ℕ × ℕ) tx =>
    let d := parseDateVal tx.date
    let cnt := match st.1, d with
      | some l, some t => if t < l then st.2 + 1 else st.2
      | _, _ => st.2
    let last := match d with
      | some _ => d
      | none => st.1
    (last, cnt)) (none, 0)).2

/-- Message of the balance-continuity issue. -/
def contMsg : String := "Opening balance plus transactions does not match closing balance."

/-- Date-sequence detector (emitted only inside the opening/closing branch). -/
def dateSeqBlock (op cl : Option ℚ) (txs : List TxF) : List Issue :=
  match op, cl with
  | some _, some _ =>
    if txs = [] then []
    else
      let v := dateViolations txs
      if 0 < v then
        [{ field := "date_sequence",
           message := "Transaction dates are not in chronological order (" ++
             toString v ++ " violations).",
           severity := if 5 ≤ v then "critical" else "warning",
           count := some v }]
      else []
  | _, _ => []

/-- Balance-continuity detector, error side (≥ 3 transactions). -/
def contErrBlock (op cl : Option ℚ) (txs : List TxF) : List Issue :=
  match op, cl with
  | some o, some c =>
    if txs = [] then []
    else if compareClose (some (o + txTotal txs)) (some c) (5/100) then []
    else if txs.length < 3 then []
    else [{ field := "closing_balance", message := contMsg, severity := "critical",
            expected := some (o + txTotal txs), actual := some c }]
  | _, _ => []

/-- Balance-continuity detector, warning side (< 3 transactions). -/
def contWarnBlock (op cl : Option ℚ) (txs : List TxF) : List Issue :=
  match op, cl with
  | some o, some c =>
    if txs = [] then []
    else if compareClose (some (o + txTotal txs)) (some c) (5/100) then []
    else if txs.length < 3 then
      [{ field := "closing_balance", message := contMsg, severity := "info",
         expected := some (o + txTotal txs), actual := some c }]
    else []
  | _, _ => []

/-- Invalid-date detector (`invalid_dates`). -/
def invalidDatesBlock (txs : List TxF) : List Issue :=
  let c := (txs.filter (fun t => pyTruthy t.date && (parseDateVal t.date).isNone)).length
  if 0 < c then
    [{ field := "transactions",
       message := "Invalid or impossible transaction date detected.",
       severity := "warning", count := some c }]
  else []

/-- `running_mismatches`: per-row balance-reconciliation failures. -/
def runningMismatches (txs : List TxF) : ℕ :=
  (txs.foldl (fun (st : Option ℚ × ℕ) tx =>
    let b := safeNumber tx.balance
    let a := safeNumber tx.amount
    let cnt := match st.1, a, b with
      | some p, some av, some bv =>
        if compareClose (some (p + av)) (some bv) (5/100) then st.2 else st.2 + 1
      | _, _, _ => st.2
    let prev := match b with
      | some _ => b
      | none => st.1
    (prev, cnt)) (none, 0)).2

/-- Running-balance detector. -/
def runningBlock (txs : List TxF) : List Issue :=
  let m := runningMismatches txs
  if 0 < m then
    [{ field := "balance", message := "Running balance does not reconcile for some rows.",
       severity := "warning", count := some m }]
  else []

/-- `last_balance`: last non-`None` row balance. -/
def lastSomeBalance (txs : List TxF) : Option ℚ :=
  (txBalances txs).reverse.findSome? id

/-- Closing-vs-last-row detector ("summary injection"). -/
def closingVsLastBlock (cl : Option ℚ) (txs : List TxF) : List Issue :=
  match cl, lastSomeBalance txs with
  | some c, some lb =>
    if compareClose (some lb) (some c) (5/100) then []
    else
      [{ field := "closing_balance",
         message := "Closing balance does not match last row balance (summary injection).",
         severity := "critical", expected := some lb, actual := some c }]
  | _, _ => []

/-- Closing-balance magnitude detector (currency-aware). -/
def magnitudeBlock (outlierFactor : ℚ) (cl : Option ℚ) (txs : List TxF) : List Issue :=
  match cl with
  | some c =>
    if txBalances txs = [] then []
    else
      let nb := (txBalances txs).filterMap id
      if nb = [] then []
      else
        let m := (sortQ nb).getD (nb.length / 2) 0
        if m ≠ 0 && qAbs m * outlierFactor < qAbs c then
          [{ field := "closing_balance",
             message := "Closing balance magnitude is far outside the transaction balance range.",
             severity := "critical", medianBalance := some m, closingBalanceV := some c }]
        else []
  | none => []

/-- Leading digits of the parseable amounts that land in 1..9 (`leading_counts`). -/
def leadDigits (txs : List TxF) : List ℕ :=
  ((txAmounts txs).filterMap leadingDigit).filter (fun d => 1 ≤ d && d ≤ 9)

/-- `total_leading`. -/
def totalLeading (txs : List TxF) : ℕ := (leadDigits txs).length

/-- Count of leading-digit-1 amounts (`leading_counts[0]`). -/
def onesLeading (txs : List TxF) : ℕ := ((leadDigits txs).filter (fun d => d = 1)).length

/-- The leading-digit-1 ratio tested by the Benford detector. -/
def benfordRatio (txs : List TxF) : ℚ := (onesLeading txs : ℚ) / (totalLeading txs : ℚ)

/-- Benford detector. -/
def benfordBlock (txs : List TxF) : List Issue :=
  if 20 ≤ totalLeading txs then
    if benfordRatio txs < 1/4 then
      [{ field := "benford",
         message := "Benford distribution deviates (leading digit '1' under 25%).",
         severity := "warning", ratioVal := some (pyRound (benfordRatio txs) 3) }]
    else []
  else []

/-- Python `abs(amt) % round_unit == 0` on exact rationals. -/
def isRoundMultiple (a u : ℚ) : Bool := (qAbs a / u).den = 1

/-- Round-number detector (currency-aware). -/
def roundBlock (cur : String) (roundUnit minRound : ℚ) (txs : List TxF) : List Issue :=
  let real := (txAmounts txs).filter (fun a => a ≠ 0)
  if real = [] then []
  else
    let rnd := real.filter (fun a => minRound ≤ qAbs a && isRoundMultiple a roundUnit)
    let rt : ℚ := (rnd.length : ℚ) / (real.length : ℚ)
    if 3/10 < rt then
      [{ field := "round_numbers",
         message := "High frequency of round-number transactions (currency=" ++ cur ++
           ", unit=" ++ qRender roundUnit ++ ").",
         severity := "warning", ratioVal := some (pyRound rt 3),
         roundCount := some rnd.length, totalCount := some real.length,
         currencyV := some cur, roundUnitV := some roundUnit }]
    else []

/-- Structuring detector. -/
def structuringBlock (txs : List TxF) : List Issue :=
  let pos := (txAmounts txs).filter (fun a => 0 < a)
  let hits :=
    if pos = [] then ([] : List ℚ)
    else
      let ht := (percentile pos 90).getD 0
      let band := if ht ≠ 0 then ht * (1/100) else 0
      pos.filter (fun a => ht - band ≤ a && a ≤ ht)
  if 3 ≤ hits.length then
    [{ field := "structuring",
       message := "Potential structuring detected (cluster near high-percentile deposit).",
       severity := "warning", count := some hits.length }]
  else []

/-- Update an insertion-ordered velocity tally at a key. -/
def bumpKey (l : List (String × ℕ × ℕ)) (k : String) (sm : Bool) : List (String × ℕ × ℕ) :=
  if l.any (fun kv => kv.1 = k) then
    l.map (fun kv =>
      if kv.1 = k then (kv.1, kv.2.1 + 1, if sm then kv.2.2 + 1 else kv.2.2) else kv)
  else l ++ [(k, 1, if sm then 1 else 0)]

/-- The velocity tally (`velocity_counts`), keyed by day and normalized
counterparty; zipping truncates to the parseable amounts as in the source. -/
def velocityTally (txs : List TxF) : List (String × ℕ × ℕ) :=
  let amts := txAmounts txs
  let dates := txDates txs
  let descsN := (txDescs txs).map normalizeCounterparty
  let small := (percentile (amts.map qAbs) 30).getD 0
  ((dates.zip descsN).zip amts).foldl (fun acc trip =>
    match trip with
    | ((some dv, dn), am) =>
      if dn = "" then acc
      else bumpKey acc (isoRender dv ++ "::" ++ dn) (qAbs am ≤ small)
    | ((none, _), _) => acc) []

/-- Velocity detector. -/
def velocityBlock (txs : List TxF) : List Issue :=
  let hits := ((velocityTally txs).filter (fun kv => 3 ≤ kv.2.1 && 3 ≤ kv.2.2)).map (·.1)
  if hits ≠ [] then
    [{ field := "velocity",
       message := "High-frequency same-day counterparty payments detected (velocity anomaly).",
       severity := "warning", examples := some (hits.take 3) }]
  else []

/-- Ghost-lifestyle cash-flow detector. -/
def ghostBlock (txs : List TxF) : List Issue :=
  let tin := ((txAmounts txs).filter (fun a => 0 < a)).sum
  let tout := (((txAmounts txs).filter (fun a => a < 0)).map qAbs).sum
  if 0 < tin && tout = 0 then
    [{ field := "cashflow",
       message := "Income present with zero expenses (ghost lifestyle pattern).",
       severity := "warning" }]
  else []

/-- Sustained-negative-balance detector. -/
def negBalBlock (txs : List TxF) : List Issue :=
  let tb := txBalances txs
  if tb = [] then []
  else
    let nn := tb.filterMap id
    let rt : ℚ := if nn = [] then 0 else ((nn.filter (fun b => b < 0)).length : ℚ) / (nn.length : ℚ)
    if 1/2 < rt then
      [{ field := "cashflow", message := "Sustained negative balances detected.",
         severity := "warning", ratioVal := some (pyRound rt 3) }]
    else []

/-- Mixed-date-format detector. -/
def mixedBlock (txs : List TxF) : List Issue :=
  let toks := (txDateRaw txs).filter (fun d => d ≠ "")
  if toks ≠ [] && toks.any hasAlpha3 && toks.any numScanPat then
    [{ field := "transactions",
       message := "Mixed date formats detected (possible merge artifact).",
       severity := "info" }]
  else []

/-- `unique_desc`: distinct lower-cased stripped nonempty descriptions. -/
def uniqueDescCount (txs : List TxF) : ℕ :=
  (((txDescs txs).filter (fun d => d ≠ "")).map (fun d => pyStrip (sLower d))).dedup.length

/-- Repetitive-description synthetic-pattern detector. -/
def synth1Block (txs : List TxF) : List Issue :=
  if txDescs txs = [] then []
  else
    let rt : ℚ := 1 - (uniqueDescCount txs : ℚ) / (max 1 (txDescs txs).length : ℚ)
    if 4/5 < rt then
      [{ field := "synthetic",
         message := "Unusually repetitive transaction descriptions detected (synthetic pattern).",
         severity := "warning", ratioVal := some (pyRound rt 3) }]
    else []

/-- Low-description-diversity synthetic-pattern detector. -/
def synth2Block (txs : List TxF) : List Issue :=
  if txDescs txs ≠ [] && uniqueDescCount txs ≤ 2 && 10 ≤ (txDescs txs).length then
    [{ field := "synthetic",
       message := "Very low description diversity detected (synthetic pattern).",
       severity := "warning", uniqueDescs := some (uniqueDescCount txs) }]
  else []

/-- The warnings emitted inside the `if transactions:` section, in source
order. -/
def txSection (cur : String) (prof : CurrencyProfile) (cl : Option ℚ)
    (txs : List TxF) : List Issue :=
  invalidDatesBlock txs ++ runningBlock txs ++ closingVsLastBlock cl txs ++
    magnitudeBlock prof.outlierFactor cl txs ++ benfordBlock txs ++
    roundBlock cur prof.roundUnit prof.minRound txs ++ structuringBlock txs ++
    velocityBlock txs ++ ghostBlock txs ++ negBalBlock txs ++ mixedBlock txs ++
    synth1Block txs ++ synth2Block txs

/-- Errors of the bank-statement branch. -/
def bankErrors (ext : Extracted) : List Issue :=
  contErrBlock (safeNumber ext.opening) (safeNumber ext.closing) ext.transactions

/-- Warnings of the bank-statement branch, in source order. -/
def bankWarnings (ext : Extracted) : List Issue :=
  let op := safeNumber ext.opening
  let cl := safeNumber ext.closing
  let txs := ext.transactions
  let cur := detectCurrency ext
  let prof := getCurrencyProfile cur
  dateSeqBlock op cl txs ++ contWarnBlock op cl txs ++
    (if txs = [] then [] else txSection cur prof cl txs)

/-- Cross-document consistency check of the bank-statement branch. -/
def bankConsistency (ext : Extracted) (look : Val → Option PrevStatement) : Consistency :=
  if pyTruthy ext.accountNumber then
    match look ext.accountNumber with
    | some prev =>
      match safeNumber prev.closingBalance, safeNumber ext.opening with
      | some pc, some op =>
        if compareClose (some pc) (some op) (5/100) then ⟨true, []⟩
        else
          ⟨false,
           [{ field := "opening_balance",
              message := "Opening balance does not match previous closing balance.",
              severity := "critical", previousClosing := some pc,
              currentOpening := some op }]⟩
      | _, _ => ⟨true, []⟩
    | none => ⟨true, []⟩
  else ⟨true, []⟩

/-- Errors of the invoice branch. -/
def invoiceErrors (ext : Extracted) : List Issue :=
  let subtotal := safeNumber ext.subtotal
  let tax := safeNumber ext.tax
  let total := safeNumber ext.total
  let e1 := match subtotal, tax, total with
    | some s, some t, some tt =>
      if compareClose (some (s + t)) (some tt) (2/100) then []
      else [{ field := "total", message := "Subtotal + tax does not match total.",
              severity := "critical", expected := some (s + t), actual := some tt }]
    | _, _, _ => []
  let e2 := match parseDateVal ext.invoiceDate, parseDateVal ext.dueDate with
    | some i, some d =>
      if d < i then
        [{ field := "due_date", message := "Due date is earlier than invoice date.",
           severity := "critical" }]
      else []
    | _, _ => []
  e1 ++ e2

/-- Warnings of the invoice branch. -/
def invoiceWarnings (ext : Extracted) (now : ℕ) : List Issue :=
  match parseDateVal ext.invoiceDate with
  | some i =>
    if now < i then
      [{ field := "invoice_date", message := "Invoice date is in the future.",
         severity := "info" }]
    else []
  | none => []

/-- Errors of the payslip branch (net-exceeds-gross, then non-positive gross). -/
def payslipErrors (ext : Extracted) : List Issue :=
  let gross := safeNumber ext.grossSalary
  let net := safeNumber ext.netSalary
  let e1 := match gross, net with
    | some g, some n =>
      if g < n then
        [{ field := "net_salary", message := "Net salary exceeds gross salary.",
           severity := "critical" }]
      else []
    | _, _ => []
  let e3 := match gross with
    | some g =>
      if g ≤ 0 then
        [{ field := "gross_salary", message := "Gross salary must be positive.",
           severity := "critical" }]
      else []
    | none => []
  e1 ++ e3

/-- Warnings of the payslip branch. -/
def payslipWarnings (ext : Extracted) : List Issue :=
  match safeNumber ext.grossSalary, safeNumber ext.netSalary, safeNumber ext.deductions with
  | some g, some n, some d =>
    if compareClose (some (g - d)) (some n) (5/100) then []
    else
      [{ field := "deductions", message := "Gross minus deductions does not match net salary.",
         severity := "warning" }]
  | _, _, _ => []

/-- `validation.run_validations`.  `look` is the injected
prior-statement-lookup collaborator and `now` the ambient clock read by the
invoice branch; the function is total by construction. -/
def runValidations (docType : String) (ext : Extracted)
    (look : Val → Option PrevStatement) (now : ℕ) :
    List Issue × List Issue × Consistency :=
  let dt := if docType = "" then "unknown" else sLower docType
  let errors :=
    (if dt = "invoice" then invoiceErrors ext else []) ++
    (if dt = "bank_statement" then bankErrors ext else []) ++
    (if dt = "payslip" then payslipErrors ext else [])
  let warnings :=
    (if dt = "invoice" then invoiceWarnings ext now else []) ++
    (if dt = "bank_statement" then bankWarnings ext else []) ++
    (if dt = "payslip" then payslipWarnings ext else [])
  let consistency :=
    if dt = "bank_statement" then bankConsistency ext look else ⟨true, []⟩
  (errors, warnings, consistency)

/-! ## Statement normalizer (`excel_normalizer.py`).

A worksheet is a grid of cells; `openpyxl` cell values are `None`, strings,
numbers or `datetime` objects. -/

/-- One spreadsheet cell value. -/
inductive Cell : Type
  | none : Cell
  | str : String → Cell
  | num : ℚ → Cell
  | date : ℕ → Cell
deriving DecidableEq, Repr

/-- A worksheet: dimensions plus a total cell function (1-based indices;
out-of-range cells read as `None`, as `openpyxl` does). -/
structure Sheet : Type where
  maxRow : ℕ
  maxCol : ℕ
  cell : ℕ → ℕ → Cell

/-- Build a sheet from a row-major list of rows. -/
def sheetOf (rows : List (List Cell)) (cols : ℕ) : Sheet where
  maxRow := rows.length
  maxCol := cols
  cell r c := (((rows.get? (r - 1)).getD []).get? (c - 1)).getD .none

/-- Python `str(cell_value)`. -/
def cellStrRaw : Cell → String
  | .none => "None"
  | .str s => s
  | .num q => qRender q
  | .date n => isoRender n ++ " 00:00:00"

/-- Python truthiness of a cell value. -/
def cellTruthy : Cell → Bool
  | .none => false
  | .str s => s ≠ ""
  | .num q => q ≠ 0
  | .date _ => true

/-- Python `str(cell_value or "")`. -/
def cellStrOr (c : Cell) : String := if cellTruthy c then cellStrRaw c else ""

/-- `v is None or str(v).strip() == ""` (the per-cell part of the
empty-row test). -/
def cellBlank : Cell → Bool
  | .none => true
  | .str s => pyStripL s.toList = []
  | .num _ => false
  | .date _ => false

/-- `excel_normalizer._safe_float`: strip currency symbols, commas and
whitespace, honour parenthesized negatives, then `float(...)`. -/
def safeFloat (v : Cell) : Option ℚ :=
  match v with
  | .none => none
  | .num q => some q
  | .date _ => none
  | .str s =>
    if s = "" || s = "None" then none
    else
      let t := ((pyStripL s.toList).filter (fun c =>
        !(c = '₹' || c = '$' || c = '€' || c = '£' || c = ',' || c.isWhitespace)))
      match t with
      | '(' :: rest =>
        let inner := rest.takeWhile (fun c => c ≠ ')')
        if rest = inner ++ [')'] && inner ≠ [] && inner.all (fun c => c.isDigit || c = '.') then
          (parseUnsigned inner).map (fun q => -q)
        else none
      | _ => pyFloat (String.mk t)

/-- `HEADER_ALIASES`, in source order. -/
def headerAliases : List (String × List String) :=
  [("date", ["tran date", "txn date", "transaction date", "date", "value date", "posting date"]),
   ("description", ["particulars", "description", "narration", "transaction details",
                    "details", "memo"]),
   ("debit", ["debit", "withdrawal", "withdrawals", "dr", "debit amount"]),
   ("credit", ["credit", "deposit", "deposits", "cr", "credit amount"]),
   ("balance", ["balance", "closing balance", "balanc e", "running balance", "balance after"]),
   ("cheque", ["chq no", "cheque no", "chq no.", "ref no./cheque no.", "ref no", "reference"])]

/-- All header aliases, flattened. -/
def allAliases : List String := (headerAliases.map (·.2)).flatten

/-- `excel_normalizer._is_header_text`. -/
def isHeaderText (v : Cell) : Bool :=
  match v with
  | .none => false
  | _ =>
    let text := pyStrip (sLower (cellStrRaw v))
    if text = "" then false else allAliases.any (fun a => a = text)

/-- `excel_normalizer._is_garbage_text`. -/
def isGarbageText (text : String) : Bool :=
  if text = "" then false
  else
    let lower := pyStrip (sLower text)
    if patUnrings lower || patPherate lower || pat0511 lower || patDollar lower then true
    else
      let alnum := (text.toList.filter (fun c => c.isAlphanum || c.isWhitespace)).length
      decide (5 < text.length) && decide (alnum * 10 < text.length * 3)

/-- Does a header-row cell text match a semantic column's aliases
(exact membership or substring)? -/
def aliasMatch (text : String) (aliases : List String) : Bool :=
  aliases.any (fun a => a = text) || aliases.any (fun a => strContains text a)

/-- Column mapping produced by header detection (semantic name →
1-based column, when mapped). -/
structure HeaderMap : Type where
  date : Option ℕ := none
  description : Option ℕ := none
  debit : Option ℕ := none
  credit : Option ℕ := none
  balance : Option ℕ := none
  cheque : Option ℕ := none
deriving DecidableEq, Repr

/-- First column of the row whose text matches the aliases. -/
def firstMatchCol (ws : Sheet) (r : ℕ) (aliases : List String) : Option ℕ :=
  (List.range' 1 ws.maxCol).find? (fun c =>
    aliasMatch (pyStrip (sLower (cellStrOr (ws.cell r c)))) aliases)

/-- The alias map a single row induces (`_detect_header_row` inner loop). -/
def headerMapOfRow (ws : Sheet) (r : ℕ) : HeaderMap where
  date := firstMatchCol ws r (headerAliases.get! 0).2
  description := firstMatchCol ws r (headerAliases.get! 1).2
  debit := firstMatchCol ws r (headerAliases.get! 2).2
  credit := firstMatchCol ws r (headerAliases.get! 3).2
  balance := firstMatchCol ws r (headerAliases.get! 4).2
  cheque := firstMatchCol ws r (headerAliases.get! 5).2

/-- Does a row qualify as the header row? -/
def headerQualifies (m : HeaderMap) : Bool :=
  m.date.isSome && (m.debit.isSome || m.credit.isSome || m.description.isSome)

/-- `excel_normalizer._detect_header_row` (first 30 rows). -/
def detectHeaderRow (ws : Sheet) : Option (ℕ × HeaderMap) :=
  (List.range' 1 (min 30 ws.maxRow)).findSome? (fun r =>
    let m := headerMapOfRow ws r
    if headerQualifies m then some (r, m) else none)

/-- The fallback column layout used when no header row is found. -/
def fallbackHeaderMap : HeaderMap :=
  { date := some 2, description := some 4, debit := some 5, credit := some 6,
    balance := some 7, cheque := none }

/-- Header row and alias map after the fallback. -/
def headerInfo (ws : Sheet) : ℕ × HeaderMap :=
  (detectHeaderRow ws).getD (1, fallbackHeaderMap)

/-- The detected (or fallback) header row of a sheet. -/
def headerRowOf (ws : Sheet) : ℕ := (headerInfo ws).1

/-- Resolved transaction-scan columns (`col_map.get(..., default)`). -/
structure ColMap : Type where
  dateC : ℕ
  descC : ℕ
  debitC : ℕ
  creditC : ℕ
  balC : ℕ
  chequeC : Option ℕ
deriving DecidableEq, Repr

/-- Resolve a header map to scan columns with the source's defaults. -/
def resolveCols (m : HeaderMap) : ColMap where
  dateC := m.date.getD 2
  descC := m.description.getD 4
  debitC := m.debit.getD 5
  creditC := m.credit.getD 6
  balC := m.balance.getD 7
  chequeC := m.cheque

/-- The resolved scan columns of a sheet. -/
def colMapOf (ws : Sheet) : ColMap := resolveCols (headerInfo ws).2

/-- One step of the summary scan at a single cell (`_extract_summary_balances`
loop body): on an OPENING/CLOSING label, read the first numeric cell in the
next four columns (overwriting), with a column-2 fallback only while the
value is still unset. -/
def summaryCellStep (ws : Sheet) (st : Option ℚ × Option ℚ) (r c : ℕ) :
    Option ℚ × Option ℚ :=
  match ws.cell r c with
  | .none => st
  | v =>
    let text := pyStrip (sUpper (cellStrRaw v))
    let scanned := (List.range' (c + 1) (min ws.maxCol (c + 4) - c)).findSome?
      (fun c2 => safeFloat (ws.cell r c2))
    let fallback2 := safeFloat (ws.cell r 2)
    let st1 :=
      if strContains text "OPENING BALANCE" || strContains text "OPENING BAL" then
        let op := match scanned with
          | some v2 => some v2
          | none => st.1
        let op := if op = none && fallback2.isSome then fallback2 else op
        (op, st.2)
      else st
    if strContains text "CLOSING BALANCE" || strContains text "CLOSING BAL" then
      let cl := match scanned with
        | some v2 => some v2
        | none => st1.2
      let cl := if cl = none && fallback2.isSome then fallback2 else cl
      (st1.1, cl)
    else st1

/-- `excel_normalizer._extract_summary_balances` (first 25 rows, first 9
columns). -/
def extractSummaryBalances (ws : Sheet) : Option ℚ × Option ℚ :=
  (List.range' 1 (min 25 ws.maxRow)).foldl (fun st r =>
    (List.range' 1 (min ws.maxCol 9)).foldl (fun st2 c => summaryCellStep ws st2 r c) st)
    (none, none)

/-- Python `str.title()`. -/
def pyTitle (s : String) : String :=
  (s.toList.foldl (fun (st : Bool × List Char) c =>
    if c.isAlpha then
      (true, st.2 ++ [if st.1 then c.toLower else c.toUpper])
    else (false, st.2 ++ [c])) (false, [])).2 |> String.mk

/-- Capture of `upi/p2[am]/digits/(segment)` on a lower-cased description. -/
def upiCapture (l : List Char) : Option String :=
  l.tails.findSome? (fun t =>
    if startsWithL t "upi/p2a/".toList || startsWithL t "upi/p2m/".toList then
      let rest := t.drop 8
      let digits := rest.takeWhile Char.isDigit
      let rest2 := rest.drop digits.length
      if digits ≠ [] then
        match rest2 with
        | '/' :: seg =>
          let cap := seg.takeWhile (fun c => c ≠ '/')
          if cap ≠ [] then some (String.mk cap) else none
        | _ => none
      else none
    else none)

/-- Capture of `neft/segment/(segment)` on a lower-cased description. -/
def neftCapture (l : List Char) : Option String :=
  l.tails.findSome? (fun t =>
    if startsWithL t "neft/".toList then
      let rest := t.drop 5
      let seg1 := rest.takeWhile (fun c => c ≠ '/')
      let rest2 := rest.drop seg1.length
      if seg1 ≠ [] then
        match rest2 with
        | '/' :: seg =>
          let cap := seg.takeWhile (fun c => c ≠ '/')
          if cap ≠ [] then some (String.mk cap) else none
        | _ => none
      else none
    else none)

/-- Fallback merchant: first three words of the letters-only description. -/
def fallbackMerchant (desc : String) : String :=
  let words := (splitOnPred (pyStripL (desc.toList.map (fun c => if c.isAlpha then c else ' ')))
    (fun c => c = ' ')).filter (fun w => w ≠ [])
  pyTitle (String.intercalate " " ((words.take 3).map String.mk))

/-- `excel_normalizer._classify_transaction`. -/
def classifyTransaction (desc : String) (amount : ℚ) : String × String :=
  let lower := sLower desc
  let ll := lower.toList
  let pair : String × String :=
    if strContains lower "salary" || strContains lower "bulk posting" then ("Salary", "")
    else if strContains lower "upi" then
      ("UPI Payment", match upiCapture ll with
        | some m => pyTitle (pyStrip m)
        | none => "")
    else if strContains lower "neft" then
      ("NEFT Transfer", match neftCapture ll with
        | some m => pyTitle (pyStrip m)
        | none => "")
    else if strContains lower "imps" then ("IMPS Transfer", "")
    else if strContains lower "atm" || strContains lower "cash" then ("ATM/Cash", "")
    else if strContains lower "emi" || strContains lower "loan" then ("EMI/Loan", "")
    else if strContains lower "fee" || strContains lower "charge" || strContains lower "chrg" then
      ("Fees & Charges", "")
    else if strContains lower "interest" then ("Interest", "")
    else if strContains lower "card" || strContains lower "pos" then ("Card Payment", "")
    else if strContains lower "insurance" || strContains lower "premium" then ("Insurance", "")
    else if strContains lower "transfer" || strContains lower "trf" then ("Transfer", "")
    else if strContains lower "bill" || strContains lower "recharge" then ("Bill Payment", "")
    else if 0 < amount then ("Income", "")
    else if amount < 0 then ("Expense", "")
    else ("Other", "")
  if pair.2 = "" && desc ≠ "" then (pair.1, fallbackMerchant desc) else pair

/-- `excel_normalizer._try_parse_date` (with the length and header-text
guards of the source; string parsing is the modelled `dateutil` call with
`dayfirst=True`). -/
def tryParseDate (v : Cell) : Option ℕ :=
  match v with
  | .none => none
  | .date n => some n
  | _ =>
    let s := pyStrip (cellStrRaw v)
    if s = "" || s.length < 6 then none
    else if isHeaderText (.str s) then none
    else parseDateStr s

/-! ## The transaction-row scan -/

/-- A parsed transaction record (`tx` dict of the row scan). -/
structure TxRec : Type where
  date : Option String
  description : String
  amount : Option ℚ
  balance : Option ℚ
  txType : String
  category : String
  merchant : String
  rowIndex : ℕ
  chequeNo : Option String
deriving DecidableEq, Repr

/-- An anomaly record; metadata/merge anomalies carry no row index, the
detail fields are present only on the first metadata branch. -/
structure Anomaly : Type where
  type : String
  severity : String
  description : String
  row : Option ℕ := none
  headerClosing : Option ℚ := none
  calculatedClosing : Option ℚ := none
  discrepancy : Option ℚ := none
  ratioVal : Option ℚ := none
deriving DecidableEq, Repr

/-- The `metadata_discrepancy` record. -/
structure MD : Type where
  headerClosing : ℚ
  calculatedClosing : ℚ
  discrepancy : ℚ
  ratioVal : ℚ
deriving DecidableEq, Repr

/-- Date-format tallies (`date_formats_seen`: the four possible keys). -/
structure DF : Type where
  dtObj : ℕ := 0
  alpha : ℕ := 0
  iso : ℕ := 0
  numeric : ℕ := 0
deriving DecidableEq, Repr

/-- State threaded through the row scan. -/
structure ScanState : Type where
  txs : List TxRec := []
  anomalies : List Anomaly := []
  log : List String := []
  closingFromRow : Option ℚ := none
  garbageCount : ℕ := 0
  headerSkipped : ℕ := 0
  streak : ℕ := 0
  df : DF := {}
deriving DecidableEq, Repr

/-- The initial scan state. -/
def initScan : ScanState := {}

/-- The result of normalizing a statement. -/
structure NormalizedStatement : Type where
  opening : Option ℚ := none
  closing : Option ℚ := none
  accountNumber : Option String := none
  accountHolder : Option String := none
  periodFrom : Option String := none
  periodTo : Option String := none
  transactions : List TxRec := []
  repairLog : List String := []
  rawHeaders : List String := []
  detectedAnomalies : List Anomaly := []
  metadataDiscrepancy : Option MD := none
deriving DecidableEq, Repr

/-- The summary-label descriptions skipped by the row scan. -/
def summaryLabels : List String :=
  ["OPENING BALANCE", "CLOSING BALANCE", "TRANSACTION TOTAL", "TOTAL", ""]

/-- Is the row fully empty at the five scanned columns? -/
def rowEmptyAt (ws : Sheet) (cm : ColMap) (r : ℕ) : Bool :=
  cellBlank (ws.cell r cm.dateC) && cellBlank (ws.cell r cm.descC) &&
    cellBlank (ws.cell r cm.debitC) && cellBlank (ws.cell r cm.creditC) &&
    cellBlank (ws.cell r cm.balC)

/-- Does any of the five scanned cells hold header-alias text? -/
def rowHasHeaderText (ws : Sheet) (cm : ColMap) (r : ℕ) : Bool :=
  isHeaderText (ws.cell r cm.dateC) || isHeaderText (ws.cell r cm.descC) ||
    isHeaderText (ws.cell r cm.debitC) || isHeaderText (ws.cell r cm.creditC) ||
    isHeaderText (ws.cell r cm.balC)

/-- The stripped upper-cased description of a row (`desc_str`). -/
def descStrOf (ws : Sheet) (cm : ColMap) (r : ℕ) : String :=
  pyStrip (sUpper (cellStrOr (ws.cell r cm.descC)))

/-- The raw description text of a row (`desc_text`). -/
def descTextOf (ws : Sheet) (cm : ColMap) (r : ℕ) : String :=
  cellStrOr (ws.cell r cm.descC)

/-- Signed amount and transaction type from the debit/credit cells
(credit positive, debit negated and overriding, shared-column fallback). -/
def amountTy (debit credit : Option ℚ) : Option ℚ × String :=
  let s1 : Option ℚ × String :=
    match credit with
    | some c => if 0 < c then (some c, "credit") else (none, "unknown")
    | none => (none, "unknown")
  let s2 : Option ℚ × String :=
    match debit with
    | some d => if 0 < d then (some (-d), "debit") else s1
    | none => s1
  match s2.1 with
  | some a => (some a, s2.2)
  | none =>
    match credit, debit with
    | some c, _ => (some c, s2.2)
    | none, some d => (some (-d), s2.2)
    | none, none => (none, s2.2)

/-- Date-format tally update for an accepted row. -/
def dfUpdate (df : DF) (dateCell : Cell) (parsed : Option ℕ) (dateStr : String) : DF :=
  match parsed with
  | none => df
  | some _ =>
    match dateCell with
    | .date _ => { df with dtObj := df.dtObj + 1 }
    | _ =>
      if hasAlpha3 dateStr then { df with alpha := df.alpha + 1 }
      else if isoScanPat dateStr then { df with iso := df.iso + 1 }
      else if numScanPat dateStr then { df with numeric := df.numeric + 1 }
      else df

/-- The transaction record emitted for an accepted row. -/
def mkTx (ws : Sheet) (cm : ColMap) (r : ℕ) : TxRec :=
  let dateCell := ws.cell r cm.dateC
  let parsed := tryParseDate dateCell
  let dateStr := pyStrip (cellStrOr dateCell)
  let descText := descTextOf ws cm r
  let debit := safeFloat (ws.cell r cm.debitC)
  let credit := safeFloat (ws.cell r cm.creditC)
  let balance := safeFloat (ws.cell r cm.balC)
  let at2 := amountTy debit credit
  let catMer := classifyTransaction descText (at2.1.getD 0)
  { date :=
      match parsed with
      | some n => some (isoRender n)
      | none => if dateStr ≠ "None" then some dateStr else none,
    description := descText,
    amount := at2.1,
    balance := balance,
    txType := at2.2,
    category := catMer.1,
    merchant := catMer.2,
    rowIndex := r,
    chequeNo :=
      match cm.chequeC with
      | none => none
      | some cc =>
        let s := pyStrip (cellStrOr (ws.cell r cc))
        if s = "" then none else some s }

/-- The garbage-text anomaly recorded for a skipped garbage row. -/
def garbageAnom (r : ℕ) (descText : String) : Anomaly :=
  { type := "garbage_text", severity := "warning", row := some r,
    description := "OCR garbage detected: " ++ String.mk (descText.toList.take 60) }

/-- Process one non-empty row (body of the scan loop after the empty-row
branch, in source order: header-alias skip, summary-label skip with
closing capture, garbage skip, non-date skip, phantom skip, emit). -/
def processRow (ws : Sheet) (cm : ColMap) (r : ℕ) (s : ScanState) : ScanState :=
  if rowHasHeaderText ws cm r then
    { s with headerSkipped := s.headerSkipped + 1,
             log := s.log ++ ["skipped header-text row " ++ toString r] }
  else
    let descS := descStrOf ws cm r
    if summaryLabels.any (fun l => l = descS) then
      if descS = "CLOSING BALANCE" then
        match s.closingFromRow, safeFloat (ws.cell r cm.balC) with
        | none, some cb =>
          { s with closingFromRow := some cb,
                   log := s.log ++ ["closing_from_transactions: " ++ qRender cb] }
        | _, _ => s
      else s
    else
      let descText := descTextOf ws cm r
      if isGarbageText descText then
        { s with anomalies := s.anomalies ++ [garbageAnom r descText],
                 garbageCount := s.garbageCount + 1 }
      else
        let dateCell := ws.cell r cm.dateC
        let parsed := tryParseDate dateCell
        let dateStr := pyStrip (cellStrOr dateCell)
        let debit := safeFloat (ws.cell r cm.debitC)
        let credit := safeFloat (ws.cell r cm.creditC)
        let balance := safeFloat (ws.cell r cm.balC)
        if parsed = none && dateStr ≠ "" && dateStr ≠ "None" &&
            debit = none && credit = none && balance = none then
          { s with log := s.log ++ ["skipped non-date row " ++ toString r] }
        else
          let at2 := amountTy debit credit
          if at2.1 = none && balance = none then
            { s with log := s.log ++ ["skipped phantom row " ++ toString r] }
          else
            { s with df := dfUpdate s.df dateCell parsed dateStr,
                     txs := s.txs ++ [mkTx ws cm r] }

/-- The row scan: returns the final state and whether it stopped early on
the more-than-ten-consecutive-empty-rows heuristic. -/
def scanRows (ws : Sheet) (cm : ColMap) : List ℕ → ScanState → ScanState × Bool
  | [], s => (s, false)
  | r :: rest, s =>
    if rowEmptyAt ws cm r then
      if 10 < s.streak + 1 then ({ s with streak := s.streak + 1 }, true)
      else scanRows ws cm rest { s with streak := s.streak + 1 }
    else scanRows ws cm rest (processRow ws cm r { s with streak := 0 })

/-- Explicit OPENING BALANCE row just below the header (step 3). -/
def openingFromRows (ws : Sheet) (h : ℕ) (cm : ColMap) : Option ℚ :=
  (List.range' (h + 1) (min (h + 4) ws.maxRow - h)).findSome? (fun r =>
    let found := (List.range' 1 (min ws.maxCol 9)).any (fun c =>
      let v := ws.cell r c
      cellTruthy v && strContains (sUpper (cellStrRaw v)) "OPENING BALANCE")
    if found then safeFloat (ws.cell r cm.balC) else none)

/-- Last `balance` value among the parsed transactions, scanning backwards. -/
def lastBalanceOf (txs : List TxRec) : Option ℚ :=
  txs.reverse.findSome? (·.balance)

/-- The anomaly recorded by the first metadata-integrity branch. -/
def mdAnom1 (h c rt : ℚ) : Anomaly :=
  { type := "metadata_integrity_failure", severity := "critical",
    description := "FRAUD SIGNAL: Header closing balance (" ++ qRender h ++
      ") does not match calculated row balance (" ++ qRender c ++
      "). Discrepancy: " ++ qRender (qAbs (h - c)) ++
      ". The document header is inconsistent with the transaction data - " ++
      "possible summary injection or data tampering.",
    headerClosing := some h, calculatedClosing := some c,
    discrepancy := some (qAbs (h - c)), ratioVal := some rt }

/-- First metadata-integrity branch: summary-declared closing vs the last
transaction balance. -/
def metadataBranch1 (summaryClosing : Option ℚ) (lastTx : Option ℚ) :
    Option MD × List Anomaly :=
  match summaryClosing, lastTx with
  | some h, some c =>
    if 1 < qAbs (h - c) && 0 < qAbs c && qAbs c * 5 < qAbs h then
      let rt := if c ≠ 0 then pyRound (qAbs (h / c)) 2 else 999999999
      (some ⟨h, c, qAbs (h - c), rt⟩, [mdAnom1 h c rt])
    else (none, [])
  | _, _ => (none, [])

/-- Second metadata-integrity branch: resolved closing balance wildly
inconsistent with the last transaction balance. -/
def metadataBranch2 (closing : Option ℚ) (lastTx : Option ℚ) :
    Option MD × List Anomaly :=
  match closing, lastTx with
  | some z, some c =>
    if qAbs c * 50 < qAbs z && 0 < qAbs c then
      let rt := if c ≠ 0 then pyRound (qAbs (z / c)) 2 else 999999999
      (some ⟨z, c, qAbs (z - c), rt⟩,
       [{ type := "metadata_integrity_failure", severity := "critical",
          description := "FRAUD SIGNAL: Closing balance (" ++ qRender z ++
            ") is wildly inconsistent with last transaction balance (" ++ qRender c ++
            "). Possible summary injection or data tampering." }])
    else (none, [])
  | _, _ => (none, [])

/-- Merge-artifact anomaly (step 6): at least two date formats each seen at
least twice. -/
def mergeAnoms (df : DF) : List Anomaly :=
  let realCount := (if 2 ≤ df.dtObj then 1 else 0) + (if 2 ≤ df.alpha then 1 else 0) +
    (if 2 ≤ df.iso then 1 else 0) + (if 2 ≤ df.numeric then 1 else 0)
  if 1 < realCount then
    [{ type := "merge_artifact", severity := "warning",
       description := "Mixed date formats detected. Possible file merge." }]
  else []

/-- The full row scan of a sheet, from just below the header to the last
row (or the early stop). -/
def scanOf (ws : Sheet) : ScanState × Bool :=
  scanRows ws (colMapOf ws)
    (List.range' (headerRowOf ws + 1) (ws.maxRow - headerRowOf ws)) initScan

/-- The opening balance a sheet resolves to (explicit OPENING BALANCE row,
else the summary-scan value). -/
def openingOf (ws : Sheet) : Option ℚ :=
  match openingFromRows ws (headerRowOf ws) (colMapOf ws) with
  | some v => some v
  | none => (extractSummaryBalances ws).1

/-- The closing balance a sheet resolves to, in the source's priority
order: explicit CLOSING BALANCE row, else the last transaction's balance,
else the summary-scan value. -/
def closingOf (ws : Sheet) : Option ℚ :=
  match (scanOf ws).1.closingFromRow with
  | some c => some c
  | none =>
    match lastBalanceOf (scanOf ws).1.txs with
    | some b => some b
    | none => (extractSummaryBalances ws).2

/-- The first metadata-integrity branch of a sheet (guarded by a non-empty
transaction list). -/
def md1Of (ws : Sheet) : Option MD × List Anomaly :=
  if (scanOf ws).1.txs = [] then (none, [])
  else metadataBranch1 (extractSummaryBalances ws).2 (lastBalanceOf (scanOf ws).1.txs)

/-- The second metadata-integrity branch of a sheet (only when the first
did not fire). -/
def md2Of (ws : Sheet) : Option MD × List Anomaly :=
  if (scanOf ws).1.txs = [] || ((md1Of ws).1).isSome then (none, [])
  else metadataBranch2 (closingOf ws) (lastBalanceOf (scanOf ws).1.txs)

/-- `excel_normalizer.normalize_excel_statement` on a decoded worksheet
(summary scan, header detection, explicit opening row, row scan, closing
resolution, metadata integrity check, merge-artifact check). -/
def normalizeSheet (ws : Sheet) (filename : String) : NormalizedStatement :=
  { opening := openingOf ws,
    closing := closingOf ws,
    transactions := (scanOf ws).1.txs,
    repairLog :=
      ["normalizing: " ++ filename,
       "sheet rows=" ++ toString ws.maxRow ++ " cols=" ++ toString ws.maxCol] ++
      (scanOf ws).1.log ++
      ["parsed: " ++ toString (scanOf ws).1.txs.length ++ " transactions"],
    rawHeaders :=
      (List.range' 1 ws.maxCol).map (fun c => cellStrOr (ws.cell (headerRowOf ws) c)),
    detectedAnomalies :=
      (scanOf ws).1.anomalies ++ (md1Of ws).2 ++ (md2Of ws).2 ++ mergeAnoms (scanOf ws).1.df,
    metadataDiscrepancy :=
      match (md1Of ws).1 with
      | some m => some m
      | none => (md2Of ws).1 }

/-- `normalize_excel_statement` including the unreadable-workbook guard:
an undecodable input yields an empty statement. -/
def normalizeExcelStatement (content : Option Sheet) (filename : String) :
    NormalizedStatement :=
  match content with
  | none => { repairLog := ["normalizing: " ++ filename, "failed to open workbook"] }
  | some ws => normalizeSheet ws filename

/-! ## Glue from normalizer output to validation input (the merge performed
by `api/ingestion.py`: normalizer balances and transaction dicts are placed
into the extracted-fields record). -/

/-- Lift an optional rational into a dynamic value. -/
def optQVal : Option ℚ → Val
  | some q => .num q
  | none => .none

/-- Lift an optional string into a dynamic value. -/
def optSVal : Option String → Val
  | some s => .str s
  | none => .none

/-- A normalizer transaction dict as seen by `run_validations`. -/
def txToF (t : TxRec) : TxF :=
  { date := optSVal t.date, description := .str t.description,
    amount := optQVal t.amount, balance := optQVal t.balance }

/-- A normalized statement as the extracted-fields record passed to
`run_validations` by the ingestion pipeline. -/
def stmtToExtracted (ns : NormalizedStatement) : Extracted :=
  { opening := optQVal ns.opening, closing := optQVal ns.closing,
    accountNumber := optSVal ns.accountNumber,
    transactions := ns.transactions.map txToF }

/-- The lookup collaborator that knows no prior statement. -/
def emptyLookup : Val → Option PrevStatement := fun _ => none

/-! ## Concrete scenario inputs -/

/-- The metadata-fraud scenario sheet: summary section declaring
opening=100,000 and closing=1,250,000, a header row, and three transactions
(+50,000, −25,000, +0) with running balances 150,000 / 125,000 / 125,000. -/
def c1sheet : Sheet :=
  sheetOf
    [[.str "OPENING BALANCE", .num 100000],
     [.str "CLOSING BALANCE", .num 1250000],
     [.str "date", .str "particulars", .str "debit", .str "credit", .str "balance"],
     [.date 20240105, .str "salary credit", .none, .num 50000, .num 150000],
     [.date 20240110, .str "upi payment", .num 25000, .none, .num 125000],
     [.date 20240115, .str "service", .none, .num 0, .num 125000]]
    5


/-- A sheet identical in content to the metadata-fraud scenario, used to
exercise the metadata-integrity condition. -/
def c3sheet : Sheet :=
  sheetOf
    [[.str "OPENING BALANCE", .num 100000],
     [.str "CLOSING BALANCE", .num 1250000],
     [.str "date", .str "particulars", .str "debit", .str "credit", .str "balance"],
     [.date 20240105, .str "salary credit", .none, .num 50000, .num 150000],
     [.date 20240110, .str "upi payment", .num 25000, .none, .num 125000],
     [.date 20240115, .str "service", .none, .num 0, .num 125000]]
    5

/-- Balance-identity witness: opening 100, closing 250, three numeric
amounts summing to 140 (mismatch 10 > 0.05). -/
def c2ext : Extracted :=
  { opening := .num 100, closing := .num 250,
    transactions :=
      [⟨.str "2024-01-01", .str "alpha", .num 50, .none⟩,
       ⟨.str "2024-01-02", .str "beta", .num 50, .none⟩,
       ⟨.str "2024-01-03", .str "gamma", .num 40, .none⟩] }

/-- Date-sequence counterexample input: two out-of-order dated transactions
but no opening balance. -/
def c5ext : Extracted :=
  { transactions :=
      [⟨.str "2024-02-02", .str "first", .num 5, .none⟩,
       ⟨.str "2024-01-01", .str "second", .num 7, .none⟩] }

/-- Date-sequence witness input: the same out-of-order transactions with
numeric opening and closing balances. -/
def c5ext2 : Extracted :=
  { opening := .num 0, closing := .num 12,
    transactions :=
      [⟨.str "2024-02-02", .str "first", .num 5, .none⟩,
       ⟨.str "2024-01-01", .str "second", .num 7, .none⟩] }

/-- Benford scenario A: 25 amounts, 2 with leading digit 1 (ratio 0.08). -/
def c6extA : Extracted :=
  { transactions :=
      (List.replicate 23 ({ amount := .num 500 } : TxF)) ++
        [{ amount := .num 100 }, { amount := .num 150 }] }

/-- Benford scenario B: 25 amounts, 23 with leading digit 1 (ratio 0.92). -/
def c6extB : Extracted :=
  { transactions :=
      (List.replicate 23 ({ amount := .num 100 } : TxF)) ++
        [{ amount := .num 500 }, { amount := .num 550 }] }

/-- Cross-document witness input: account "123" with opening 4,950. -/
def c7ext : Extracted :=
  { accountNumber := .str "123", opening := .num 4950 }

/-- Lookup returning a prior statement with closing 5,000 for account "123". -/
def c7look : Val → Option PrevStatement :=
  fun v => if v = .str "123" then some ⟨.num 5000⟩ else none

/-- Garbage-row witness sheet: a header row and one row whose description is
pure non-alphanumeric noise. -/
def c8sheet : Sheet :=
  sheetOf
    [[.str "date", .str "particulars", .str "debit", .str "credit", .str "balance"],
     [.date 20240101, .str "@@@###%%%", .none, .num 100, .num 100]]
    5

/-- Empty-streak counterexample sheet: a header row, exactly ten fully-empty
rows, then one more transaction row. -/
def c9sheet : Sheet :=
  sheetOf
    [[.str "date", .str "particulars", .str "debit", .str "credit", .str "balance"],
     [], [], [], [], [], [], [], [], [], [],
     [.date 20240101, .str "pay", .none, .num 500, .num 500]]
    5

/-- Empty-streak witness sheet: a header row, eleven fully-empty rows, then
one more transaction row (which the scan must not reach). -/
def c9sheet2 : Sheet :=
  sheetOf
    [[.str "date", .str "particulars", .str "debit", .str "credit", .str "balance"],
     [], [], [], [], [], [], [], [], [], [], [],
     [.date 20240101, .str "pay", .none, .num 500, .num 500]]
    5

/-- Debit-precedence witness sheet: one row with both debit 30 and credit 40. -/
def c10sheet : Sheet :=
  sheetOf
    [[.str "date", .str "particulars", .str "debit", .str "credit", .str "balance"],
     [.date 20240101, .str "pay", .num 30, .num 40, .num 70]]
    5

/-! ## Sanitization (for the never-raises / skip-dependent-check claim):
replacing every numeric field that does not parse by an absent value. -/

/-- Keep a value when it parses as a number, else replace it by `None`. -/
def numOrNone (v : Val) : Val :=
  match safeNumber v with
  | some _ => v
  | none => .none

/-- Sanitize the numeric fields of a transaction entry. -/
def sanitizeTx (t : TxF) : TxF :=
  { t with amount := numOrNone t.amount, balance := numOrNone t.balance }

/-- Sanitize every numeric field of an extracted record. -/
def sanitizeNumeric (ext : Extracted) : Extracted :=
  { ext with
    opening := numOrNone ext.opening, closing := numOrNone ext.closing,
    subtotal := numOrNone ext.subtotal, tax := numOrNone ext.tax,
    total := numOrNone ext.total, grossSalary := numOrNone ext.grossSalary,
    netSalary := numOrNone ext.netSalary, deductions := numOrNone ext.deductions,
    transactions := ext.transactions.map sanitizeTx }


/-! ## Lemmas about the row scan -/

theorem scanRows_append (ws : Sheet) (cm : ColMap) (xs ys : List ℕ) (s : ScanState) :
    scanRows ws cm (xs ++ ys) s =
      (if (scanRows ws cm xs s).2 then scanRows ws cm xs s
       else scanRows ws cm ys (scanRows ws cm xs s).1) := by
  induction xs generalizing s with
  | nil => simp [scanRows]
  | cons a t ih =>
    simp only [List.cons_append, scanRows]
    by_cases he : rowEmptyAt ws cm a = true
    · simp only [he, if_true]
      by_cases hb : 10 < s.streak + 1
      · simp [hb]
      · simp only [hb, if_false]
        exact ih _
    · simp only [he, if_false]
      exact ih _

theorem processRow_effects (ws : Sheet) (cm : ColMap) (r : ℕ) (s : ScanState) :
    ((processRow ws cm r s).txs = s.txs ∨
      (processRow ws cm r s).txs = s.txs ++ [mkTx ws cm r]) ∧
    ((processRow ws cm r s).anomalies = s.anomalies ∨
      (processRow ws cm r s).anomalies =
        s.anomalies ++ [garbageAnom r (descTextOf ws cm r)]) := by
  simp only [processRow]
  split_ifs <;>
    refine ⟨?_, ?_⟩ <;>
    first
      | (left; rfl)
      | (right; rfl)
      | (left; split <;> rfl)

theorem scanRows_txs (ws : Sheet) (cm : ColMap) (xs : List ℕ) (s : ScanState) :
    ∀ tx ∈ (scanRows ws cm xs s).1.txs,
      tx ∈ s.txs ∨ (tx.rowIndex ∈ xs ∧ tx = mkTx ws cm tx.rowIndex) := by
  induction xs generalizing s with
  | nil => intro tx htx; exact Or.inl htx
  | cons a t ih =>
    intro tx htx
    simp only [scanRows] at htx
    by_cases he : rowEmptyAt ws cm a = true
    · simp only [he, if_true] at htx
      by_cases hb : 10 < s.streak + 1
      · simp only [hb, if_true] at htx
        exact Or.inl htx
      · simp only [hb, if_false] at htx
        rcases ih _ tx htx with h | ⟨h1, h2⟩
        · exact Or.inl h
        · exact Or.inr ⟨List.mem_cons_of_mem _ h1, h2⟩
    · simp only [he, if_false] at htx
      rcases ih _ tx htx with h | ⟨h1, h2⟩
      · rcases (processRow_effects ws cm a { s with streak := 0 }).1 with he2 | he2
        · rw [he2] at h; exact Or.inl h
        · rw [he2] at h
          rcases List.mem_append.mp h with h3 | h3
          · exact Or.inl h3
          · have : tx = mkTx ws cm a := by simpa using h3
            refine Or.inr ⟨?_, ?_⟩
            · rw [this]; simp [mkTx, List.mem_cons]
            · rw [this]; simp [mkTx]
      · exact Or.inr ⟨List.mem_cons_of_mem _ h1, h2⟩

theorem scanRows_anoms (ws : Sheet) (cm : ColMap) (xs : List ℕ) (s : ScanState) :
    ∀ a ∈ (scanRows ws cm xs s).1.anomalies,
      a ∈ s.anomalies ∨ ∃ r ∈ xs, a = garbageAnom r (descTextOf ws cm r) := by
  induction xs generalizing s with
  | nil => intro a ha; exact Or.inl ha
  | cons b t ih =>
    intro a ha
    simp only [scanRows] at ha
    by_cases he : rowEmptyAt ws cm b = true
    · simp only [he, if_true] at ha
      by_cases hb : 10 < s.streak + 1
      · simp only [hb, if_true] at ha
        exact Or.inl ha
      · simp only [hb, if_false] at ha
        rcases ih _ a ha with h | ⟨r, h1, h2⟩
        · exact Or.inl h
        · exact Or.inr ⟨r, List.mem_cons_of_mem _ h1, h2⟩
    · simp only [he, if_false] at ha
      rcases ih _ a ha with h | ⟨r, h1, h2⟩
      · rcases (processRow_effects ws cm b { s with streak := 0 }).2 with he2 | he2
        · rw [he2] at h; exact Or.inl h
        · rw [he2] at h
          rcases List.mem_append.mp h with h3 | h3
          · exact Or.inl h3
          · exact Or.inr ⟨b, List.mem_cons_self _ _, by simpa using h3⟩
      · exact Or.inr ⟨r, List.mem_cons_of_mem _ h1, h2⟩

theorem scanRows_stop (ws : Sheet) (cm : ColMap) (run : List ℕ) (s : ScanState)
    (hne : run ≠ []) (hemp : ∀ r ∈ run, rowEmptyAt ws cm r = true)
    (hlen : 10 < s.streak + run.length) :
    (scanRows ws cm run s).2 = true ∧ (scanRows ws cm run s).1.txs = s.txs := by
  induction run generalizing s with
  | nil => exact absurd rfl hne
  | cons a t ih =>
    have hea : rowEmptyAt ws cm a = true := hemp a (List.mem_cons_self _ _)
    simp only [scanRows, hea, if_true]
    by_cases hb : 10 < s.streak + 1
    · simp [hb]
    · simp only [hb, if_false]
      have htne : t ≠ [] := by
        intro hteq
        subst hteq
        simp at hlen
        omega
      have := ih { s with streak := s.streak + 1 } htne
        (fun r hr => hemp r (List.mem_cons_of_mem _ hr))
        (by simp at hlen ⊢; omega)
      simpa using this

theorem processRow_garbage (ws : Sheet) (cm : ColMap) (r : ℕ) (s : ScanState)
    (h1 : rowHasHeaderText ws cm r = false)
    (h2 : summaryLabels.any (fun l => l = descStrOf ws cm r) = false)
    (h3 : isGarbageText (descTextOf ws cm r) = true) :
    processRow ws cm r s =
      ⟨s.txs, s.anomalies ++ [garbageAnom r (descTextOf ws cm r)], s.log,
       s.closingFromRow, s.garbageCount + 1, s.headerSkipped, s.streak, s.df⟩ := by
  simp only [processRow, h1, h2, h3]
  simp

theorem scanRows_countRow (ws : Sheet) (cm : ColMap) (xs : List ℕ) (s : ScanState)
    (r : ℕ) :
    r ∉ xs →
      ((scanRows ws cm xs s).1.anomalies.countP (fun a => a.row == some r)) =
        s.anomalies.countP (fun a => a.row == some r) := by
  induction xs generalizing s with
  | nil => intro _; rfl
  | cons b t ih =>
    intro hr
    have hbr : b ≠ r := fun h => hr (h ▸ List.mem_cons_self _ _)
    have hrt : r ∉ t := fun h => hr (List.mem_cons_of_mem _ h)
    simp only [scanRows]
    by_cases he : rowEmptyAt ws cm b = true
    · rw [if_pos he]
      by_cases hb : 10 < s.streak + 1
      · rw [if_pos hb]
      · rw [if_neg hb]
        exact ih _ hrt
    · rw [if_neg he]
      rw [ih _ hrt]
      rcases (processRow_effects ws cm b { s with streak := 0 }).2 with he2 | he2
      · rw [he2]
      · rw [he2, List.countP_append]
        have hb2 : (b == r) = false := by simp [hbr]
        simp [List.countP, List.countP.go, garbageAnom, hb2]

/-- Claim C9 (amended): once eleven consecutive fully-empty rows are seen
below the header, no later row contributes a transaction: the row scan
breaks only when the empty streak exceeds ten. -/
theorem scan_stops_after_eleven_empties (ws : Sheet) (fn : String) (a : ℕ)
    (h1 : headerRowOf ws < a)
    (h2 : ∀ i, a ≤ i → i < a + 11 → rowEmptyAt ws (colMapOf ws) i = true)
    (h3 : a + 10 ≤ ws.maxRow) :
    ∀ tx ∈ (normalizeSheet ws fn).transactions, tx.rowIndex < a + 11 := by
  intro tx htx
  have hts : (normalizeSheet ws fn).transactions = (scanOf ws).1.txs := rfl
  rw [hts] at htx
  unfold scanOf at htx
  have e1 : (headerRowOf ws + 1) + (a - (headerRowOf ws + 1)) = a := by omega
  have e2 : List.range' (headerRowOf ws + 1) (a - (headerRowOf ws + 1)) ++
      List.range' a 11 =
      List.range' (headerRowOf ws + 1) (11 + (a - (headerRowOf ws + 1))) := by
    have h := List.range'_append_1 (headerRowOf ws + 1) (a - (headerRowOf ws + 1)) 11
    rw [e1] at h
    exact h
  have e4 : List.range' (headerRowOf ws + 1) (11 + (a - (headerRowOf ws + 1))) ++
      List.range' (a + 11) (ws.maxRow - (a + 10)) =
      List.range' (headerRowOf ws + 1) (ws.maxRow - headerRowOf ws) := by
    have h := List.range'_append_1 (headerRowOf ws + 1)
      (11 + (a - (headerRowOf ws + 1))) (ws.maxRow - (a + 10))
    have e5 : (headerRowOf ws + 1) + (11 + (a - (headerRowOf ws + 1))) = a + 11 := by omega
    have e6 : (ws.maxRow - (a + 10)) + (11 + (a - (headerRowOf ws + 1))) =
        ws.maxRow - headerRowOf ws := by omega
    rw [e5, e6] at h
    exact h
  rw [← e4, ← e2] at htx
  have hrun_ne : List.range' a 11 ≠ [] := by simp [List.range']
  have hrun_emp : ∀ r ∈ List.range' a 11, rowEmptyAt ws (colMapOf ws) r = true := by
    intro r hr
    rcases List.mem_range'_1.mp hr with ⟨hr1, hr2⟩
    exact h2 r hr1 hr2
  have hstop : (scanRows ws (colMapOf ws)
      (List.range' (headerRowOf ws + 1) (a - (headerRowOf ws + 1)) ++ List.range' a 11)
      initScan).2 = true := by
    rw [scanRows_append]
    by_cases hp : (scanRows ws (colMapOf ws)
        (List.range' (headerRowOf ws + 1) (a - (headerRowOf ws + 1))) initScan).2 = true
    · simp [hp]
    · simp only [hp, Bool.false_eq_true, if_false, if_neg hp]
      exact (scanRows_stop ws (colMapOf ws) (List.range' a 11) _ hrun_ne hrun_emp
        (by simp [List.length_range', initScan])).1
  rw [scanRows_append, hstop, if_pos rfl] at htx
  have hmem := scanRows_txs ws (colMapOf ws) _ initScan tx htx
  rcases hmem with hmem | ⟨hmem, _⟩
  · simp [initScan] at hmem
  · rcases List.mem_append.mp hmem with hm | hm
    · rcases List.mem_range'_1.mp hm with ⟨_, hlt⟩
      omega
    · rcases List.mem_range'_1.mp hm with ⟨_, hlt⟩
      omega

/-- Claim C9, as stated, is false: a run of exactly ten consecutive empty
rows does not stop the scan (the break fires at eleven); on `c9sheet` the
row after such a run still contributes a transaction. -/
theorem c9_counterexample :
    ¬ (∀ (ws : Sheet) (fn : String) (a : ℕ),
        headerRowOf ws < a →
        (∀ i, a ≤ i → i < a + 10 → rowEmptyAt ws (colMapOf ws) i = true) →
        a + 9 ≤ ws.maxRow →
        ∀ tx ∈ (normalizeSheet ws fn).transactions, tx.rowIndex < a + 10) := by
  intro hcl
  have h := hcl c9sheet "" 2 (by decide)
    (by intro i hi1 hi2; interval_cases i <;> decide) (by decide)
  exact absurd h (by decide)

/-- Witness for the amended claim C9 on a sheet with eleven consecutive
empty rows below the header. -/
theorem c9_witness :
    (headerRowOf c9sheet2 < 2 ∧
      (∀ i, 2 ≤ i → i < 13 → rowEmptyAt c9sheet2 (colMapOf c9sheet2) i = true) ∧
      2 + 10 ≤ c9sheet2.maxRow) ∧
    (∀ tx ∈ (normalizeSheet c9sheet2 "").transactions, tx.rowIndex < 13) := by
  refine ⟨⟨by decide, ?_, by decide⟩, ?_⟩
  · intro i hi1 hi2; interval_cases i <;> decide
  · exact scan_stops_after_eleven_empties c9sheet2 "" 2 (by decide)
      (by intro i hi1 hi2; interval_cases i <;> decide) (by decide)

theorem qAbs_eq_abs (q : ℚ) : qAbs q = |q| := by
  unfold qAbs
  rcases lt_or_le q 0 with h | h
  · rw [if_pos h, abs_of_neg h]
  · rw [if_neg (not_lt.mpr h), abs_of_nonneg h]

theorem qAbs_pos {q : ℚ} : 0 < qAbs q ↔ q ≠ 0 := by
  rw [qAbs_eq_abs]
  exact abs_pos

theorem metadataBranch1_row (sc lt : Option ℚ) :
    ∀ a ∈ (metadataBranch1 sc lt).2, a.row = none := by
  intro a ha
  unfold metadataBranch1 at ha
  split at ha <;> (try split at ha) <;> simp_all [mdAnom1]

theorem metadataBranch2_row (cl lt : Option ℚ) :
    ∀ a ∈ (metadataBranch2 cl lt).2, a.row = none := by
  intro a ha
  unfold metadataBranch2 at ha
  split at ha <;> (try split at ha) <;> simp_all

theorem md1Of_row (ws : Sheet) : ∀ a ∈ (md1Of ws).2, a.row = none := by
  intro a ha
  unfold md1Of at ha
  split at ha
  · simp at ha
  · exact metadataBranch1_row _ _ a ha

theorem md2Of_row (ws : Sheet) : ∀ a ∈ (md2Of ws).2, a.row = none := by
  intro a ha
  unfold md2Of at ha
  split at ha
  · simp at ha
  · exact metadataBranch2_row _ _ a ha

theorem mergeAnoms_row (df : DF) : ∀ a ∈ mergeAnoms df, a.row = none := by
  intro a ha
  simp only [mergeAnoms] at ha
  split at ha <;> simp_all


theorem scanRows_anoms_garbage (ws : Sheet) (cm : ColMap) (xs : List ℕ) :
    ∀ a ∈ (scanRows ws cm xs initScan).1.anomalies,
      a.type = "garbage_text" ∧ a.severity = "warning" := by
  intro a ha
  rcases scanRows_anoms ws cm xs initScan a ha with h | ⟨r, _, h⟩
  · simp [initScan] at h
  · rw [h]; exact ⟨rfl, rfl⟩

theorem scanRows_garbage_run (ws : Sheet) (cm : ColMap) (pre post : List ℕ) (r : ℕ)
    (hpre : r ∉ pre) (hpost : r ∉ post)
    (hns : (scanRows ws cm pre initScan).2 = false)
    (hne : rowEmptyAt ws cm r = false)
    (hh : rowHasHeaderText ws cm r = false)
    (hl : (summaryLabels.any fun l => l = descStrOf ws cm r) = false)
    (hg : isGarbageText (descTextOf ws cm r) = true) :
    ((scanRows ws cm (pre ++ [r] ++ post) initScan).1.anomalies.countP
      (fun a => a.row == some r)) = 1 ∧
    (∀ tx ∈ (scanRows ws cm (pre ++ [r] ++ post) initScan).1.txs, tx.rowIndex ≠ r) := by
  have hproc := processRow_garbage ws cm r
    { (scanRows ws cm pre initScan).1 with streak := 0 } hh hl hg
  rw [List.append_assoc, scanRows_append, hns]
  simp only [Bool.false_eq_true, if_false]
  rw [List.singleton_append]
  simp only [scanRows, hne, Bool.false_eq_true, if_false]
  rw [hproc]
  constructor
  · rw [scanRows_countRow ws cm post _ r hpost]
    simp only [List.countP_append]
    rw [scanRows_countRow ws cm pre initScan r hpre]
    simp [initScan, List.countP, List.countP.go, garbageAnom]
  · intro tx htx
    rcases scanRows_txs ws cm post _ tx htx with h | ⟨h, _⟩
    · simp only [] at h
      rcases scanRows_txs ws cm pre initScan tx h with h' | ⟨h', _⟩
      · simp [initScan] at h'
      · intro heq; rw [heq] at h'; exact hpre h'
    · intro heq; rw [heq] at h; exact hpost h

/-- Claim C8: a data row (reached by the scan, not empty, not header-alias
text, not a summary label) whose description matches the garbage-text
heuristic is excluded from the transactions and produces exactly one
detected anomaly, of type `garbage_text` with severity `warning`. -/
theorem garbage_row_excluded (ws : Sheet) (fn : String) (r : ℕ)
    (hr1 : headerRowOf ws + 1 ≤ r) (hr2 : r ≤ ws.maxRow)
    (hns : (scanRows ws (colMapOf ws)
      (List.range' (headerRowOf ws + 1) (r - (headerRowOf ws + 1))) initScan).2 = false)
    (hne : rowEmptyAt ws (colMapOf ws) r = false)
    (hh : rowHasHeaderText ws (colMapOf ws) r = false)
    (hl : (summaryLabels.any fun l => l = descStrOf ws (colMapOf ws) r) = false)
    (hg : isGarbageText (descTextOf ws (colMapOf ws) r) = true) :
    (∀ tx ∈ (normalizeSheet ws fn).transactions, tx.rowIndex ≠ r) ∧
    ((normalizeSheet ws fn).detectedAnomalies.countP (fun a => a.row == some r)) = 1 ∧
    (∀ a ∈ (normalizeSheet ws fn).detectedAnomalies,
      a.row = some r → a.type = "garbage_text" ∧ a.severity = "warning") := by
  have e1 : (headerRowOf ws + 1) + (r - (headerRowOf ws + 1)) = r := by omega
  have hone : List.range' r 1 = [r] := by simp [List.range']
  have e2 : List.range' (headerRowOf ws + 1) (r - (headerRowOf ws + 1)) ++ [r] =
      List.range' (headerRowOf ws + 1) (1 + (r - (headerRowOf ws + 1))) := by
    have h := List.range'_append_1 (headerRowOf ws + 1) (r - (headerRowOf ws + 1)) 1
    rw [e1, hone] at h
    exact h
  have e4 : List.range' (headerRowOf ws + 1) (1 + (r - (headerRowOf ws + 1))) ++
      List.range' (r + 1) (ws.maxRow - r) =
      List.range' (headerRowOf ws + 1) (ws.maxRow - headerRowOf ws) := by
    have h := List.range'_append_1 (headerRowOf ws + 1)
      (1 + (r - (headerRowOf ws + 1))) (ws.maxRow - r)
    have e5 : (headerRowOf ws + 1) + (1 + (r - (headerRowOf ws + 1))) = r + 1 := by omega
    have e6 : (ws.maxRow - r) + (1 + (r - (headerRowOf ws + 1))) =
        ws.maxRow - headerRowOf ws := by omega
    rw [e5, e6] at h
    exact h
  have hdecomp : List.range' (headerRowOf ws + 1) (ws.maxRow - headerRowOf ws) =
      List.range' (headerRowOf ws + 1) (r - (headerRowOf ws + 1)) ++ [r] ++
        List.range' (r + 1) (ws.maxRow - r) := by
    rw [e2, e4]
  have hpre : r ∉ List.range' (headerRowOf ws + 1) (r - (headerRowOf ws + 1)) := by
    intro hm
    rcases List.mem_range'_1.mp hm with ⟨_, hlt⟩
    omega
  have hpost : r ∉ List.range' (r + 1) (ws.maxRow - r) := by
    intro hm
    rcases List.mem_range'_1.mp hm with ⟨hge, _⟩
    omega
  have hrun := scanRows_garbage_run ws (colMapOf ws) _ _ r hpre hpost hns hne hh hl hg
  have hscan : scanOf ws = scanRows ws (colMapOf ws)
      (List.range' (headerRowOf ws + 1) (r - (headerRowOf ws + 1)) ++ [r] ++
        List.range' (r + 1) (ws.maxRow - r)) initScan := by
    unfold scanOf
    rw [hdecomp]
  refine ⟨?_, ?_, ?_⟩
  · intro tx htx
    have hts : (normalizeSheet ws fn).transactions = (scanOf ws).1.txs := rfl
    rw [hts, hscan] at htx
    exact hrun.2 tx htx
  · have hca : (normalizeSheet ws fn).detectedAnomalies =
        (scanOf ws).1.anomalies ++ (md1Of ws).2 ++ (md2Of ws).2 ++
          mergeAnoms (scanOf ws).1.df := rfl
    rw [hca]
    have hmd1 : ((md1Of ws).2.countP (fun a => a.row == some r)) = 0 :=
      List.countP_eq_zero.mpr (fun a ha => by simp [md1Of_row ws a ha])
    have hmd2 : ((md2Of ws).2.countP (fun a => a.row == some r)) = 0 :=
      List.countP_eq_zero.mpr (fun a ha => by simp [md2Of_row ws a ha])
    have hmg : ((mergeAnoms (scanOf ws).1.df).countP (fun a => a.row == some r)) = 0 :=
      List.countP_eq_zero.mpr (fun a ha => by simp [mergeAnoms_row _ a ha])
    rw [List.countP_append, List.countP_append, List.countP_append, hmd1, hmd2, hmg]
    have := hrun.1
    rw [← hscan] at this
    omega
  · intro a ha hrow
    have hca : (normalizeSheet ws fn).detectedAnomalies =
        (scanOf ws).1.anomalies ++ (md1Of ws).2 ++ (md2Of ws).2 ++
          mergeAnoms (scanOf ws).1.df := rfl
    rw [hca] at ha
    rcases List.mem_append.mp ha with ha' | hmg
    · rcases List.mem_append.mp ha' with ha'' | hmd2
      · rcases List.mem_append.mp ha'' with hsc | hmd1
        · exact scanRows_anoms_garbage ws (colMapOf ws) _ a hsc
        · exact absurd hrow (by simp [md1Of_row ws a hmd1])
      · exact absurd hrow (by simp [md2Of_row ws a hmd2])
    · exact absurd hrow (by simp [mergeAnoms_row _ a hmg])

/-- Witness for claim C8 on a concrete sheet with a noise-only description. -/
theorem garbage_row_witness :
    (headerRowOf c8sheet + 1 ≤ 2 ∧ 2 ≤ c8sheet.maxRow ∧
      (scanRows c8sheet (colMapOf c8sheet)
        (List.range' (headerRowOf c8sheet + 1) (2 - (headerRowOf c8sheet + 1)))
        initScan).2 = false ∧
      rowEmptyAt c8sheet (colMapOf c8sheet) 2 = false ∧
      rowHasHeaderText c8sheet (colMapOf c8sheet) 2 = false ∧
      (summaryLabels.any fun l => l = descStrOf c8sheet (colMapOf c8sheet) 2) = false ∧
      isGarbageText (descTextOf c8sheet (colMapOf c8sheet) 2) = true) ∧
    ((∀ tx ∈ (normalizeSheet c8sheet "").transactions, tx.rowIndex ≠ 2) ∧
      ((normalizeSheet c8sheet "").detectedAnomalies.countP
        (fun a => a.row == some 2)) = 1 ∧
      (∀ a ∈ (normalizeSheet c8sheet "").detectedAnomalies,
        a.row = some 2 → a.type = "garbage_text" ∧ a.severity = "warning")) :=
  ⟨⟨by decide, by decide, by decide, by decide, by decide, by decide, by decide⟩,
   garbage_row_excluded c8sheet "" 2 (by decide) (by decide) (by decide) (by decide)
     (by decide) (by decide) (by decide)⟩

theorem tx_from_mkTx (ws : Sheet) (fn : String) :
    ∀ tx ∈ (normalizeSheet ws fn).transactions, tx = mkTx ws (colMapOf ws) tx.rowIndex := by
  intro tx htx
  have hts : (normalizeSheet ws fn).transactions = (scanOf ws).1.txs := rfl
  rw [hts] at htx
  rcases scanRows_txs ws (colMapOf ws) _ initScan tx htx with h | ⟨_, h⟩
  · simp [initScan] at h
  · exact h

theorem amountTy_debit (d : ℚ) (cv : Option ℚ) (hd : 0 < d) :
    amountTy (some d) cv = (some (-d), "debit") := by
  simp [amountTy, hd]

/-- Claim C10: when both the debit and credit cell of an emitted transaction
row parse to strictly positive numbers, the debit column wins: the record's
amount is the negated debit and its type is `debit`. -/
theorem debit_precedence (ws : Sheet) (fn : String) (tx : TxRec) (d c : ℚ)
    (htx : tx ∈ (normalizeSheet ws fn).transactions)
    (hd : safeFloat (ws.cell tx.rowIndex (colMapOf ws).debitC) = some d) (hd0 : 0 < d)
    (_hc : safeFloat (ws.cell tx.rowIndex (colMapOf ws).creditC) = some c)
    (_hc0 : 0 < c) :
    tx.amount = some (-d) ∧ tx.txType = "debit" := by
  have h := tx_from_mkTx ws fn tx htx
  have hmk : (mkTx ws (colMapOf ws) tx.rowIndex).amount = some (-d) ∧
      (mkTx ws (colMapOf ws) tx.rowIndex).txType = "debit" := by
    simp [mkTx, hd, amountTy_debit d _ hd0]
  exact ⟨(congrArg TxRec.amount h).trans hmk.1, (congrArg TxRec.txType h).trans hmk.2⟩

/-- Witness for claim C10 on a concrete row with debit 30 and credit 40. -/
theorem debit_precedence_witness :
    ((mkTx c10sheet (colMapOf c10sheet) 2) ∈ (normalizeSheet c10sheet "").transactions ∧
      safeFloat (c10sheet.cell 2 (colMapOf c10sheet).debitC) = some 30 ∧
      safeFloat (c10sheet.cell 2 (colMapOf c10sheet).creditC) = some 40) ∧
    ((mkTx c10sheet (colMapOf c10sheet) 2).amount = some (-30) ∧
      (mkTx c10sheet (colMapOf c10sheet) 2).txType = "debit") :=
  ⟨⟨by decide, by decide, by decide⟩,
   debit_precedence c10sheet "" _ 30 40 (by decide) (by decide) (by decide)
     (by decide) (by decide)⟩

theorem mergeAnoms_type (df : DF) : ∀ a ∈ mergeAnoms df, a.type = "merge_artifact" := by
  intro a ha
  simp only [mergeAnoms] at ha
  split at ha <;> simp_all

theorem metadataBranch2_header (cl lt : Option ℚ) :
    ∀ a ∈ (metadataBranch2 cl lt).2, a.headerClosing = none := by
  intro a ha
  unfold metadataBranch2 at ha
  split at ha <;> (try split at ha) <;> simp_all

theorem lastBalanceOf_ne_nil (l : List TxRec) (c : ℚ) (h : lastBalanceOf l = some c) :
    l ≠ [] := by
  intro he
  subst he
  simp [lastBalanceOf] at h

/-- Claim C3: when the summary scan declares a closing balance and the
parsed transactions have a last running balance, the normalizer records the
metadata discrepancy and the critical `metadata_integrity_failure` anomaly
carrying both values, their difference and their ratio, exactly when the
discrepancy exceeds 1.0, the calculated value is nonzero, and the declared
magnitude exceeds five times the calculated magnitude. -/
theorem metadata_integrity_iff (ws : Sheet) (fn : String) (hc cc : ℚ)
    (hsum : (extractSummaryBalances ws).2 = some hc)
    (hlast : lastBalanceOf (normalizeSheet ws fn).transactions = some cc) :
    ((((normalizeSheet ws fn).metadataDiscrepancy ≠ none) ∧
      ∃ a ∈ (normalizeSheet ws fn).detectedAnomalies,
        a.type = "metadata_integrity_failure" ∧ a.severity = "critical" ∧
        a.headerClosing = some hc ∧ a.calculatedClosing = some cc ∧
        a.discrepancy = some (qAbs (hc - cc)) ∧
        a.ratioVal = some (pyRound (qAbs (hc / cc)) 2)) ↔
      (1 < qAbs (hc - cc) ∧ cc ≠ 0 ∧ qAbs cc * 5 < qAbs hc)) := by
  have hts : (normalizeSheet ws fn).transactions = (scanOf ws).1.txs := rfl
  rw [hts] at hlast
  have htxs : (scanOf ws).1.txs ≠ [] := lastBalanceOf_ne_nil _ _ hlast
  have hmd1 : md1Of ws = metadataBranch1 (some hc) (some cc) := by
    unfold md1Of
    rw [if_neg htxs, hsum, hlast]
  have hca : (normalizeSheet ws fn).detectedAnomalies =
      (scanOf ws).1.anomalies ++ (md1Of ws).2 ++ (md2Of ws).2 ++
        mergeAnoms (scanOf ws).1.df := rfl
  have hmdv : (normalizeSheet ws fn).metadataDiscrepancy =
      (match (md1Of ws).1 with
       | some m => some m
       | none => (md2Of ws).1) := rfl
  constructor
  · rintro ⟨_, a, ha, hty, hsev, hhc, hcc, _, _⟩
    rw [hca] at ha
    rcases List.mem_append.mp ha with ha' | hmg
    · rcases List.mem_append.mp ha' with ha'' | hmd2
      · rcases List.mem_append.mp ha'' with hsc | hmd1m
        · have := (scanRows_anoms_garbage ws (colMapOf ws) _ a hsc).1
          rw [hty] at this
          exact absurd this (by decide)
        · rw [hmd1] at hmd1m
          simp only [metadataBranch1] at hmd1m
          split at hmd1m
          · next hcond =>
            simp only [Bool.and_eq_true, decide_eq_true_eq, qAbs_pos] at hcond
            exact ⟨hcond.1.1, hcond.1.2, hcond.2⟩
          · simp at hmd1m
      · have hmm : a ∈ (metadataBranch2 (closingOf ws)
            (lastBalanceOf (scanOf ws).1.txs)).2 := by
          unfold md2Of at hmd2
          split at hmd2
          · simp at hmd2
          · exact hmd2
        have := metadataBranch2_header _ _ a hmm
        rw [hhc] at this
        exact absurd this (by simp)
    · have := mergeAnoms_type _ a hmg
      rw [hty] at this
      exact absurd this (by decide)
  · rintro ⟨h1, h2, h3⟩
    have hcond : (decide (1 < qAbs (hc - cc)) && decide (0 < qAbs cc) &&
        decide (qAbs cc * 5 < qAbs hc)) = true := by
      simp [h1, h3, qAbs_pos.mpr h2]
    have hrt : (if cc ≠ 0 then pyRound (qAbs (hc / cc)) 2 else (999999999 : ℚ)) =
        pyRound (qAbs (hc / cc)) 2 := by rw [if_pos h2]
    have hbr : metadataBranch1 (some hc) (some cc) =
        (some ⟨hc, cc, qAbs (hc - cc), pyRound (qAbs (hc / cc)) 2⟩,
         [mdAnom1 hc cc (pyRound (qAbs (hc / cc)) 2)]) := by
      simp only [metadataBranch1]
      rw [if_pos hcond, hrt]
    refine ⟨?_, ?_⟩
    · rw [hmdv, hmd1, hbr]
      simp
    · rw [hca, hmd1, hbr]
      exact ⟨mdAnom1 hc cc (pyRound (qAbs (hc / cc)) 2), by simp, rfl, rfl, rfl, rfl, rfl,
        rfl⟩

/-- Witness for claim C3 on the metadata-fraud sheet. -/
theorem metadata_integrity_witness :
    ((extractSummaryBalances c3sheet).2 = some 1250000 ∧
      lastBalanceOf (normalizeSheet c3sheet "").transactions = some 125000) ∧
    (((normalizeSheet c3sheet "").metadataDiscrepancy ≠ none) ∧
      ∃ a ∈ (normalizeSheet c3sheet "").detectedAnomalies,
        a.type = "metadata_integrity_failure" ∧ a.severity = "critical" ∧
        a.headerClosing = some 1250000 ∧ a.calculatedClosing = some 125000 ∧
        a.discrepancy = some (qAbs ((1250000 : ℚ) - 125000)) ∧
        a.ratioVal = some (pyRound (qAbs ((1250000 : ℚ) / 125000)) 2)) :=
  ⟨⟨by decide, by decide⟩,
   (metadata_integrity_iff c3sheet "" 1250000 125000 (by decide)
       (by decide)).mpr
     (by refine ⟨by decide, by decide,
       by decide⟩)⟩

/-- Claim C1 (divergence record): on the metadata-fraud scenario sheet the
normalizer does set the metadata discrepancy (calculated 125,000, ratio 10)
and the critical anomaly, but the resulting closing balance is the
calculated 125,000 rather than the declared 1,250,000, and `run_validations`
on the result emits no balance-continuity issue — contradicting the
source's own inline comment that the fraudulent header value is kept so the
validation layer fires its own balance-continuity error. -/
theorem metadata_fraud_scenario :
    (normalizeSheet c1sheet "").metadataDiscrepancy =
      some ⟨1250000, 125000, 1125000, 10⟩ ∧
    (∃ a ∈ (normalizeSheet c1sheet "").detectedAnomalies,
      a.type = "metadata_integrity_failure" ∧ a.severity = "critical") ∧
    (normalizeSheet c1sheet "").closing = some 125000 ∧
    (normalizeSheet c1sheet "").closing ≠ some 1250000 ∧
    (∀ i ∈ (runValidations "bank_statement"
        (stmtToExtracted (normalizeSheet c1sheet "")) emptyLookup 0).1,
      ¬(i.field = "closing_balance" ∧ i.message = contMsg)) ∧
    (∀ i ∈ (runValidations "bank_statement"
        (stmtToExtracted (normalizeSheet c1sheet "")) emptyLookup 0).2.1,
      ¬(i.field = "closing_balance" ∧ i.message = contMsg)) := by
  decide

/-! ## Lemmas about the validation engine -/

theorem runValidations_bank (ext : Extracted) (look : Val → Option PrevStatement)
    (now : ℕ) :
    runValidations "bank_statement" ext look now =
      (bankErrors ext, bankWarnings ext, bankConsistency ext look) := by
  have h0 : (if ("bank_statement" : String) = "" then "unknown"
      else sLower "bank_statement") = "bank_statement" := by decide
  simp only [runValidations, h0]
  simp

theorem dateSeqBlock_field (op cl : Option ℚ) (txs : List TxF) :
    ∀ i ∈ dateSeqBlock op cl txs, i.field = "date_sequence" := by
  intro i hi
  simp only [dateSeqBlock] at hi
  repeat' split at hi
  all_goals simp_all

theorem contErrBlock_field (op cl : Option ℚ) (txs : List TxF) :
    ∀ i ∈ contErrBlock op cl txs, i.field = "closing_balance" ∧ i.message = contMsg := by
  intro i hi
  simp only [contErrBlock] at hi
  repeat' split at hi
  all_goals simp_all

theorem contWarnBlock_field (op cl : Option ℚ) (txs : List TxF) :
    ∀ i ∈ contWarnBlock op cl txs, i.field = "closing_balance" ∧ i.message = contMsg := by
  intro i hi
  simp only [contWarnBlock] at hi
  repeat' split at hi
  all_goals simp_all

theorem invalidDatesBlock_field (txs : List TxF) :
    ∀ i ∈ invalidDatesBlock txs,
      i.field = "transactions" ∧
        i.message = "Invalid or impossible transaction date detected." := by
  intro i hi
  simp only [invalidDatesBlock] at hi
  repeat' split at hi
  all_goals simp_all

theorem runningBlock_field (txs : List TxF) :
    ∀ i ∈ runningBlock txs, i.field = "balance" := by
  intro i hi
  simp only [runningBlock] at hi
  repeat' split at hi
  all_goals simp_all

theorem closingVsLastBlock_field (cl : Option ℚ) (txs : List TxF) :
    ∀ i ∈ closingVsLastBlock cl txs,
      i.field = "closing_balance" ∧
        i.message =
          "Closing balance does not match last row balance (summary injection)." := by
  intro i hi
  simp only [closingVsLastBlock] at hi
  repeat' split at hi
  all_goals simp_all

theorem magnitudeBlock_field (f : ℚ) (cl : Option ℚ) (txs : List TxF) :
    ∀ i ∈ magnitudeBlock f cl txs,
      i.field = "closing_balance" ∧
        i.message =
          "Closing balance magnitude is far outside the transaction balance range." := by
  intro i hi
  simp only [magnitudeBlock] at hi
  repeat' split at hi
  all_goals simp_all

theorem benfordBlock_field (txs : List TxF) :
    ∀ i ∈ benfordBlock txs, i.field = "benford" := by
  intro i hi
  simp only [benfordBlock] at hi
  repeat' split at hi
  all_goals simp_all

theorem roundBlock_field (cur : String) (ru mr : ℚ) (txs : List TxF) :
    ∀ i ∈ roundBlock cur ru mr txs, i.field = "round_numbers" := by
  intro i hi
  simp only [roundBlock] at hi
  repeat' split at hi
  all_goals simp_all

theorem structuringBlock_field (txs : List TxF) :
    ∀ i ∈ structuringBlock txs, i.field = "structuring" := by
  intro i hi
  simp only [structuringBlock] at hi
  repeat' split at hi
  all_goals simp_all

theorem velocityBlock_field (txs : List TxF) :
    ∀ i ∈ velocityBlock txs, i.field = "velocity" := by
  intro i hi
  simp only [velocityBlock] at hi
  repeat' split at hi
  all_goals simp_all

theorem ghostBlock_field (txs : List TxF) :
    ∀ i ∈ ghostBlock txs, i.field = "cashflow" := by
  intro i hi
  simp only [ghostBlock] at hi
  repeat' split at hi
  all_goals simp_all

theorem negBalBlock_field (txs : List TxF) :
    ∀ i ∈ negBalBlock txs, i.field = "cashflow" := by
  intro i hi
  simp only [negBalBlock] at hi
  repeat' split at hi
  all_goals simp_all

theorem mixedBlock_field (txs : List TxF) :
    ∀ i ∈ mixedBlock txs,
      i.field = "transactions" ∧
        i.message = "Mixed date formats detected (possible merge artifact)." := by
  intro i hi
  simp only [mixedBlock] at hi
  repeat' split at hi
  all_goals simp_all

theorem synth1Block_field (txs : List TxF) :
    ∀ i ∈ synth1Block txs, i.field = "synthetic" := by
  intro i hi
  simp only [synth1Block] at hi
  repeat' split at hi
  all_goals simp_all

theorem synth2Block_field (txs : List TxF) :
    ∀ i ∈ synth2Block txs, i.field = "synthetic" := by
  intro i hi
  simp only [synth2Block] at hi
  repeat' split at hi
  all_goals simp_all

theorem mem_txSection (cur : String) (prof : CurrencyProfile) (cl : Option ℚ)
    (txs : List TxF) (i : Issue) :
    i ∈ txSection cur prof cl txs ↔
      i ∈ invalidDatesBlock txs ∨ i ∈ runningBlock txs ∨ i ∈ closingVsLastBlock cl txs ∨
      i ∈ magnitudeBlock prof.outlierFactor cl txs ∨ i ∈ benfordBlock txs ∨
      i ∈ roundBlock cur prof.roundUnit prof.minRound txs ∨ i ∈ structuringBlock txs ∨
      i ∈ velocityBlock txs ∨ i ∈ ghostBlock txs ∨ i ∈ negBalBlock txs ∨
      i ∈ mixedBlock txs ∨ i ∈ synth1Block txs ∨ i ∈ synth2Block txs := by
  simp only [txSection, List.mem_append]
  tauto

theorem mem_bankWarnings (ext : Extracted) (i : Issue) :
    i ∈ bankWarnings ext ↔
      (i ∈ dateSeqBlock (safeNumber ext.opening) (safeNumber ext.closing)
          ext.transactions ∨
       i ∈ contWarnBlock (safeNumber ext.opening) (safeNumber ext.closing)
          ext.transactions ∨
       (ext.transactions ≠ [] ∧
         i ∈ txSection (detectCurrency ext) (getCurrencyProfile (detectCurrency ext))
           (safeNumber ext.closing) ext.transactions)) := by
  simp only [bankWarnings, List.mem_append]
  by_cases h : ext.transactions = []
  · simp [h]
  · simp [h]
    tauto

theorem totalLeading_ne_nil (txs : List TxF) (h : 20 ≤ totalLeading txs) : txs ≠ [] := by
  intro he
  subst he
  simp [totalLeading, leadDigits, txAmounts] at h

theorem mem_benfordBlock (txs : List TxF) (i : Issue) :
    i ∈ benfordBlock txs ↔
      20 ≤ totalLeading txs ∧ benfordRatio txs < 1/4 ∧
      i = { field := "benford",
            message := "Benford distribution deviates (leading digit '1' under 25%).",
            severity := "warning", ratioVal := some (pyRound (benfordRatio txs) 3) } := by
  simp only [benfordBlock]
  split_ifs with h1 h2 <;> simp_all

theorem mem_dateSeqBlock (op cl : Option ℚ) (txs : List TxF) (i : Issue) :
    i ∈ dateSeqBlock op cl txs ↔
      ∃ o c, op = some o ∧ cl = some c ∧ txs ≠ [] ∧ 0 < dateViolations txs ∧
        i = { field := "date_sequence",
              message := "Transaction dates are not in chronological order (" ++
                toString (dateViolations txs) ++ " violations).",
              severity := if 5 ≤ dateViolations txs then "critical" else "warning",
              count := some (dateViolations txs) } := by
  simp only [dateSeqBlock]
  rcases op with _ | o <;> rcases cl with _ | c
  · simp
  · simp
  · simp
  · split_ifs with h1 h2 <;> simp_all

theorem mem_contErrBlock (o c : ℚ) (txs : List TxF) (i : Issue) :
    i ∈ contErrBlock (some o) (some c) txs ↔
      txs ≠ [] ∧ ¬(compareClose (some (o + txTotal txs)) (some c) (5/100) = true) ∧
      3 ≤ txs.length ∧
      i = { field := "closing_balance", message := contMsg, severity := "critical",
            expected := some (o + txTotal txs), actual := some c } := by
  simp only [contErrBlock]
  split_ifs with h1 h2 h3 <;> simp_all

theorem mem_contWarnBlock (o c : ℚ) (txs : List TxF) (i : Issue) :
    i ∈ contWarnBlock (some o) (some c) txs ↔
      txs ≠ [] ∧ ¬(compareClose (some (o + txTotal txs)) (some c) (5/100) = true) ∧
      txs.length < 3 ∧
      i = { field := "closing_balance", message := contMsg, severity := "info",
            expected := some (o + txTotal txs), actual := some c } := by
  simp only [contWarnBlock]
  split_ifs with h1 h2 h3 <;> simp_all

/-! ## Helper lemmas for the validation-engine claims -/

/-- `_compare_close` on two present values is the tolerance test on their
absolute difference. -/
theorem compareClose_some (x y t : ℚ) :
    compareClose (some x) (some y) t = true ↔ qAbs (x - y) ≤ t := by
  simp [compareClose]

/-- Errors of `run_validations` on a bank statement. -/
theorem runV_bank_errors (ext : Extracted) (look : Val → Option PrevStatement)
    (now : ℕ) :
    (runValidations "bank_statement" ext look now).1 = bankErrors ext := by
  rw [runValidations_bank]

/-- Warnings of `run_validations` on a bank statement. -/
theorem runV_bank_warnings (ext : Extracted) (look : Val → Option PrevStatement)
    (now : ℕ) :
    (runValidations "bank_statement" ext look now).2.1 = bankWarnings ext := by
  rw [runValidations_bank]

/-- Consistency record of `run_validations` on a bank statement. -/
theorem runV_bank_consistency (ext : Extracted) (look : Val → Option PrevStatement)
    (now : ℕ) :
    (runValidations "bank_statement" ext look now).2.2 = bankConsistency ext look := by
  rw [runValidations_bank]

/-- A warning with field `benford` can only come from the Benford detector. -/
theorem bankWarnings_benford (ext : Extracted) :
    ∀ i ∈ bankWarnings ext, i.field = "benford" → i ∈ benfordBlock ext.transactions := by
  intro i hi hf
  rw [mem_bankWarnings] at hi
  rcases hi with hi | hi | ⟨_, hi⟩
  · have h2 := dateSeqBlock_field _ _ _ i hi
    rw [h2] at hf; exact absurd hf (by decide)
  · have h2 := (contWarnBlock_field _ _ _ i hi).1
    rw [h2] at hf; exact absurd hf (by decide)
  · rw [mem_txSection] at hi
    rcases hi with hi|hi|hi|hi|hi|hi|hi|hi|hi|hi|hi|hi|hi
    · have h2 := (invalidDatesBlock_field _ i hi).1
      rw [h2] at hf; exact absurd hf (by decide)
    · have h2 := runningBlock_field _ i hi
      rw [h2] at hf; exact absurd hf (by decide)
    · have h2 := (closingVsLastBlock_field _ _ i hi).1
      rw [h2] at hf; exact absurd hf (by decide)
    · have h2 := (magnitudeBlock_field _ _ _ i hi).1
      rw [h2] at hf; exact absurd hf (by decide)
    · exact hi
    · have h2 := roundBlock_field _ _ _ _ i hi
      rw [h2] at hf; exact absurd hf (by decide)
    · have h2 := structuringBlock_field _ i hi
      rw [h2] at hf; exact absurd hf (by decide)
    · have h2 := velocityBlock_field _ i hi
      rw [h2] at hf; exact absurd hf (by decide)
    · have h2 := ghostBlock_field _ i hi
      rw [h2] at hf; exact absurd hf (by decide)
    · have h2 := negBalBlock_field _ i hi
      rw [h2] at hf; exact absurd hf (by decide)
    · have h2 := (mixedBlock_field _ i hi).1
      rw [h2] at hf; exact absurd hf (by decide)
    · have h2 := synth1Block_field _ i hi
      rw [h2] at hf; exact absurd hf (by decide)
    · have h2 := synth2Block_field _ i hi
      rw [h2] at hf; exact absurd hf (by decide)

/-- A warning with field `date_sequence` can only come from the date-sequence
detector. -/
theorem bankWarnings_dateSeq (ext : Extracted) :
    ∀ i ∈ bankWarnings ext, i.field = "date_sequence" →
      i ∈ dateSeqBlock (safeNumber ext.opening) (safeNumber ext.closing)
          ext.transactions := by
  intro i hi hf
  rw [mem_bankWarnings] at hi
  rcases hi with hi | hi | ⟨_, hi⟩
  · exact hi
  · have h2 := (contWarnBlock_field _ _ _ i hi).1
    rw [h2] at hf; exact absurd hf (by decide)
  · rw [mem_txSection] at hi
    rcases hi with hi|hi|hi|hi|hi|hi|hi|hi|hi|hi|hi|hi|hi
    · have h2 := (invalidDatesBlock_field _ i hi).1
      rw [h2] at hf; exact absurd hf (by decide)
    · have h2 := runningBlock_field _ i hi
      rw [h2] at hf; exact absurd hf (by decide)
    · have h2 := (closingVsLastBlock_field _ _ i hi).1
      rw [h2] at hf; exact absurd hf (by decide)
    · have h2 := (magnitudeBlock_field _ _ _ i hi).1
      rw [h2] at hf; exact absurd hf (by decide)
    · have h2 := benfordBlock_field _ i hi
      rw [h2] at hf; exact absurd hf (by decide)
    · have h2 := roundBlock_field _ _ _ _ i hi
      rw [h2] at hf; exact absurd hf (by decide)
    · have h2 := structuringBlock_field _ i hi
      rw [h2] at hf; exact absurd hf (by decide)
    · have h2 := velocityBlock_field _ i hi
      rw [h2] at hf; exact absurd hf (by decide)
    · have h2 := ghostBlock_field _ i hi
      rw [h2] at hf; exact absurd hf (by decide)
    · have h2 := negBalBlock_field _ i hi
      rw [h2] at hf; exact absurd hf (by decide)
    · have h2 := (mixedBlock_field _ i hi).1
      rw [h2] at hf; exact absurd hf (by decide)
    · have h2 := synth1Block_field _ i hi
      rw [h2] at hf; exact absurd hf (by decide)
    · have h2 := synth2Block_field _ i hi
      rw [h2] at hf; exact absurd hf (by decide)

/-- A warning with field `closing_balance` and the continuity message can only
come from the balance-continuity detector (warning side). -/
theorem bankWarnings_cont (ext : Extracted) :
    ∀ i ∈ bankWarnings ext, i.field = "closing_balance" → i.message = contMsg →
      i ∈ contWarnBlock (safeNumber ext.opening) (safeNumber ext.closing)
          ext.transactions := by
  intro i hi hf hm
  rw [mem_bankWarnings] at hi
  rcases hi with hi | hi | ⟨_, hi⟩
  · have h2 := dateSeqBlock_field _ _ _ i hi
    rw [h2] at hf; exact absurd hf (by decide)
  · exact hi
  · rw [mem_txSection] at hi
    rcases hi with hi|hi|hi|hi|hi|hi|hi|hi|hi|hi|hi|hi|hi
    · have h2 := (invalidDatesBlock_field _ i hi).1
      rw [h2] at hf; exact absurd hf (by decide)
    · have h2 := runningBlock_field _ i hi
      rw [h2] at hf; exact absurd hf (by decide)
    · have h2 := (closingVsLastBlock_field _ _ i hi).2
      rw [h2] at hm; exact absurd hm (by decide)
    · have h2 := (magnitudeBlock_field _ _ _ i hi).2
      rw [h2] at hm; exact absurd hm (by decide)
    · have h2 := benfordBlock_field _ i hi
      rw [h2] at hf; exact absurd hf (by decide)
    · have h2 := roundBlock_field _ _ _ _ i hi
      rw [h2] at hf; exact absurd hf (by decide)
    · have h2 := structuringBlock_field _ i hi
      rw [h2] at hf; exact absurd hf (by decide)
    · have h2 := velocityBlock_field _ i hi
      rw [h2] at hf; exact absurd hf (by decide)
    · have h2 := ghostBlock_field _ i hi
      rw [h2] at hf; exact absurd hf (by decide)
    · have h2 := negBalBlock_field _ i hi
      rw [h2] at hf; exact absurd hf (by decide)
    · have h2 := (mixedBlock_field _ i hi).1
      rw [h2] at hf; exact absurd hf (by decide)
    · have h2 := synth1Block_field _ i hi
      rw [h2] at hf; exact absurd hf (by decide)
    · have h2 := synth2Block_field _ i hi
      rw [h2] at hf; exact absurd hf (by decide)

/-- C6: for every bank statement whose transactions contain at least 20
amounts with a computable leading digit, `run_validations` emits a `benford`
warning iff the fraction of leading-digit-1 amounts is below 0.25, and any
such warning carries severity `warning` and the rounded ratio. -/
theorem benford_deviation_detector (ext : Extracted)
    (look : Val → Option PrevStatement) (now : ℕ)
    (h20 : 20 ≤ totalLeading ext.transactions) :
    ((∃ i ∈ (runValidations "bank_statement" ext look now).2.1,
        i.field = "benford") ↔ benfordRatio ext.transactions < 1/4) ∧
    ∀ i ∈ (runValidations "bank_statement" ext look now).2.1, i.field = "benford" →
      i.severity = "warning" ∧
        i.ratioVal = some (pyRound (benfordRatio ext.transactions) 3) := by
  have htx : ext.transactions ≠ [] := totalLeading_ne_nil _ h20
  rw [runV_bank_warnings]
  refine ⟨⟨?_, ?_⟩, ?_⟩
  · rintro ⟨i, hi, hf⟩
    have hb := bankWarnings_benford ext i hi hf
    exact ((mem_benfordBlock _ i).mp hb).2.1
  · intro hlt
    have hb : ({ field := "benford",
                 message := "Benford distribution deviates (leading digit '1' under 25%).",
                 severity := "warning",
                 ratioVal := some (pyRound (benfordRatio ext.transactions) 3) } : Issue) ∈
        benfordBlock ext.transactions :=
      (mem_benfordBlock _ _).mpr ⟨h20, hlt, rfl⟩
    exact ⟨_, (mem_bankWarnings ext _).mpr
      (Or.inr (Or.inr ⟨htx,
        (mem_txSection _ _ _ _ _).mpr
          (Or.inr (Or.inr (Or.inr (Or.inr (Or.inl hb)))))⟩)), rfl⟩
  · intro i hi hf
    have hb := bankWarnings_benford ext i hi hf
    obtain ⟨-, -, he⟩ := (mem_benfordBlock _ i).mp hb
    subst he
    exact ⟨rfl, rfl⟩

/-- Witness for C6: the 25-transaction scenario with 2 leading-digit-1 amounts
(ratio 2/25 = 0.08) fires the Benford warning, and the scenario with 23
leading-digit-1 amounts (ratio 23/25 = 0.92) does not. -/
theorem c6_witness :
    20 ≤ totalLeading c6extA.transactions ∧
    benfordRatio c6extA.transactions = 2/25 ∧
    (∃ i ∈ (runValidations "bank_statement" c6extA emptyLookup 0).2.1,
        i.field = "benford") ∧
    20 ≤ totalLeading c6extB.transactions ∧
    benfordRatio c6extB.transactions = 23/25 ∧
    ¬∃ i ∈ (runValidations "bank_statement" c6extB emptyLookup 0).2.1,
        i.field = "benford" := by
  refine ⟨by decide, by decide, ?_, by decide, by decide, ?_⟩
  · exact (benford_deviation_detector c6extA emptyLookup 0 (by decide)).1.mpr (by decide)
  · intro hx
    exact absurd ((benford_deviation_detector c6extB emptyLookup 0 (by decide)).1.mp hx)
      (by decide)

/-- Counterexample for C5: a bank statement with two out-of-order dated
transactions but no numeric opening/closing balance produces no
`date_sequence` issue, because the date-sequence detector is nested inside
the branch requiring both balances — it does not fire independently of
which other fields are present. -/
theorem c5_counterexample :
    c5ext.transactions ≠ [] ∧ 0 < dateViolations c5ext.transactions ∧
    ¬∃ i ∈ (runValidations "bank_statement" c5ext emptyLookup 0).2.1,
        i.field = "date_sequence" := by
  refine ⟨by decide, by decide, ?_⟩
  rintro ⟨i, hi, hf⟩
  rw [runV_bank_warnings] at hi
  have hd := bankWarnings_dateSeq c5ext i hi hf
  have h0 : dateSeqBlock (safeNumber c5ext.opening) (safeNumber c5ext.closing)
      c5ext.transactions = [] := rfl
  rw [h0] at hd
  exact absurd hd (List.not_mem_nil i)

/-- C5 (amended): for every bank statement whose opening and closing balances
are numeric and whose non-empty transaction list has out-of-order parsed
dates, `run_validations` emits a `date_sequence` issue carrying the violation
count, critical at 5 or more violations and warning below. -/
theorem date_sequence_detector (ext : Extracted)
    (look : Val → Option PrevStatement) (now : ℕ) (o c : ℚ)
    (ho : safeNumber ext.opening = some o) (hc : safeNumber ext.closing = some c)
    (htx : ext.transactions ≠ []) (hv : 0 < dateViolations ext.transactions) :
    ∃ i ∈ (runValidations "bank_statement" ext look now).2.1,
      i.field = "date_sequence" ∧ i.count = some (dateViolations ext.transactions) ∧
      i.severity =
        if 5 ≤ dateViolations ext.transactions then "critical" else "warning" := by
  rw [runV_bank_warnings]
  have hm : ({ field := "date_sequence",
               message := "Transaction dates are not in chronological order (" ++
                 toString (dateViolations ext.transactions) ++ " violations).",
               severity :=
                 if 5 ≤ dateViolations ext.transactions then "critical" else "warning",
               count := some (dateViolations ext.transactions) } : Issue) ∈
      dateSeqBlock (safeNumber ext.opening) (safeNumber ext.closing)
        ext.transactions := by
    rw [mem_dateSeqBlock]
    exact ⟨o, c, ho, hc, htx, hv, rfl⟩
  exact ⟨_, (mem_bankWarnings ext _).mpr (Or.inl hm), rfl, rfl, rfl⟩

/-- Witness for C5: the out-of-order two-transaction statement with numeric
opening and closing balances gets a `date_sequence` warning with count 1. -/
theorem c5_witness :
    ∃ i ∈ (runValidations "bank_statement" c5ext2 emptyLookup 0).2.1,
      i.field = "date_sequence" ∧ i.count = some 1 ∧ i.severity = "warning" := by
  obtain ⟨i, hi, hf, hcnt, hsev⟩ :=
    date_sequence_detector c5ext2 emptyLookup 0 0 12 (by decide) (by decide)
      (by decide) (by decide)
  have h1 : dateViolations c5ext2.transactions = 1 := by decide
  rw [h1] at hcnt hsev
  rw [if_neg (by decide)] at hsev
  exact ⟨i, hi, hf, hcnt, hsev⟩

/-- C2: for every bank statement with numeric opening and closing balances and
a non-empty transaction list of numeric amounts, `run_validations` emits the
balance-continuity `closing_balance` issue iff opening plus the sum of the
amounts differs from closing by more than 0.05; an emitted issue is a
critical error exactly when there are at least 3 transactions and an
info-severity warning otherwise, carrying the expected and actual totals. -/
theorem balance_continuity_detector (ext : Extracted)
    (look : Val → Option PrevStatement) (now : ℕ) (o c : ℚ)
    (ho : safeNumber ext.opening = some o) (hc : safeNumber ext.closing = some c)
    (htx : ext.transactions ≠ [])
    (_hall : ∀ t ∈ ext.transactions, (safeNumber t.amount).isSome = true) :
    (((∃ i ∈ (runValidations "bank_statement" ext look now).1,
          i.field = "closing_balance" ∧ i.message = contMsg) ∨
      (∃ i ∈ (runValidations "bank_statement" ext look now).2.1,
          i.field = "closing_balance" ∧ i.message = contMsg)) ↔
      5/100 < qAbs (o + txTotal ext.transactions - c)) ∧
    (∀ i ∈ (runValidations "bank_statement" ext look now).1,
        i.field = "closing_balance" → i.message = contMsg →
        i.severity = "critical" ∧ 3 ≤ ext.transactions.length ∧
        i.expected = some (o + txTotal ext.transactions) ∧ i.actual = some c) ∧
    (∀ i ∈ (runValidations "bank_statement" ext look now).2.1,
        i.field = "closing_balance" → i.message = contMsg →
        i.severity = "info" ∧ ext.transactions.length < 3 ∧
        i.expected = some (o + txTotal ext.transactions) ∧ i.actual = some c) := by
  rw [runV_bank_errors, runV_bank_warnings]
  have hkey : ¬(compareClose (some (o + txTotal ext.transactions)) (some c)
      (5/100) = true) ↔ 5/100 < qAbs (o + txTotal ext.transactions - c) := by
    rw [compareClose_some]
    exact not_le
  have hE : ∀ i : Issue, i ∈ bankErrors ext ↔
      i ∈ contErrBlock (some o) (some c) ext.transactions := by
    intro i
    rw [bankErrors, ho, hc]
  refine ⟨⟨?_, ?_⟩, ?_, ?_⟩
  · rintro (⟨i, hi, hf, hm⟩ | ⟨i, hi, hf, hm⟩)
    · exact hkey.mp ((mem_contErrBlock o c ext.transactions i).mp ((hE i).mp hi)).2.1
    · have h2 := bankWarnings_cont ext i hi hf hm
      rw [ho, hc] at h2
      exact hkey.mp ((mem_contWarnBlock o c ext.transactions i).mp h2).2.1
  · intro hlt
    have hncc := hkey.mpr hlt
    by_cases hlen : ext.transactions.length < 3
    · right
      have hw : ({ field := "closing_balance", message := contMsg,
                   severity := "info",
                   expected := some (o + txTotal ext.transactions),
                   actual := some c } : Issue) ∈
          contWarnBlock (some o) (some c) ext.transactions :=
        (mem_contWarnBlock o c ext.transactions _).mpr ⟨htx, hncc, hlen, rfl⟩
      rw [← ho, ← hc] at hw
      exact ⟨_, (mem_bankWarnings ext _).mpr (Or.inr (Or.inl hw)), rfl, rfl⟩
    · left
      have he : ({ field := "closing_balance", message := contMsg,
                   severity := "critical",
                   expected := some (o + txTotal ext.transactions),
                   actual := some c } : Issue) ∈
          contErrBlock (some o) (some c) ext.transactions :=
        (mem_contErrBlock o c ext.transactions _).mpr
          ⟨htx, hncc, Nat.le_of_not_lt hlen, rfl⟩
      exact ⟨_, (hE _).mpr he, rfl, rfl⟩
  · intro i hi hf hm
    obtain ⟨-, -, hlen, he⟩ :=
      (mem_contErrBlock o c ext.transactions i).mp ((hE i).mp hi)
    subst he
    exact ⟨rfl, hlen, rfl, rfl⟩
  · intro i hi hf hm
    have h2 := bankWarnings_cont ext i hi hf hm
    rw [ho, hc] at h2
    obtain ⟨-, -, hlen, he⟩ := (mem_contWarnBlock o c ext.transactions i).mp h2
    subst he
    exact ⟨rfl, hlen, rfl, rfl⟩

/-- Witness for C2: opening 100, three numeric amounts summing to 140,
closing 250 (difference 10 > 0.05, 3 transactions) produce the critical
continuity error with expected 240 and actual 250. -/
theorem c2_witness :
    ∃ i ∈ (runValidations "bank_statement" c2ext emptyLookup 0).1,
      i.field = "closing_balance" ∧ i.message = contMsg ∧
      i.severity = "critical" ∧ i.expected = some 240 ∧ i.actual = some 250 := by
  have h := balance_continuity_detector c2ext emptyLookup 0 100 250 (by decide)
    (by decide) (by decide) (by decide)
  have h240 : some ((100 : ℚ) + txTotal c2ext.transactions) = some (240 : ℚ) := by
    decide
  rcases h.1.mpr (by decide) with ⟨i, hi, hf, hm⟩ | ⟨i, hi, hf, hm⟩
  · obtain ⟨hs, -, he, ha⟩ := h.2.1 i hi hf hm
    exact ⟨i, hi, hf, hm, hs, by rw [he, h240], ha⟩
  · obtain ⟨-, hlen, -, -⟩ := h.2.2 i hi hf hm
    exact absurd hlen (by decide)

/-- C7: for every bank statement with a truthy account number whose lookup
yields a prior statement with numeric closing balance, against a numeric
current opening balance: if they differ by more than 0.05 the consistency
record is inconsistent with exactly the one critical `opening_balance` issue
recording both balances, and otherwise it is consistent with no issues. -/
theorem cross_document_consistency (ext : Extracted)
    (look : Val → Option PrevStatement) (now : ℕ) (prev : PrevStatement)
    (pc op : ℚ) (hacct : pyTruthy ext.accountNumber = true)
    (hlook : look ext.accountNumber = some prev)
    (hpc : safeNumber prev.closingBalance = some pc)
    (hop : safeNumber ext.opening = some op) :
    (5/100 < qAbs (pc - op) →
      (runValidations "bank_statement" ext look now).2.2 =
        ⟨false,
         [{ field := "opening_balance",
            message := "Opening balance does not match previous closing balance.",
            severity := "critical", previousClosing := some pc,
            currentOpening := some op }]⟩) ∧
    (qAbs (pc - op) ≤ 5/100 →
      (runValidations "bank_statement" ext look now).2.2 = ⟨true, []⟩) := by
  rw [runV_bank_consistency]
  constructor
  · intro hgt
    have hcc : compareClose (some pc) (some op) (5/100) = false := by
      rw [Bool.eq_false_iff, Ne, compareClose_some]
      exact not_le.mpr hgt
    simp [bankConsistency, hacct, hlook, hpc, hop, hcc]
  · intro hle
    have hcc : compareClose (some pc) (some op) (5/100) = true := by
      rw [compareClose_some]
      exact hle
    simp [bankConsistency, hacct, hlook, hpc, hop, hcc]

/-- Witness for C7: a prior statement for account "123" with closing 5,000
and a current opening of 4,950 (difference 50) yield an inconsistent record
with the single critical `opening_balance` issue. -/
theorem c7_witness :
    (runValidations "bank_statement" c7ext c7look 0).2.2 =
      ⟨false,
       [{ field := "opening_balance",
          message := "Opening balance does not match previous closing balance.",
          severity := "critical", previousClosing := some 5000,
          currentOpening := some 4950 }]⟩ :=
  (cross_document_consistency c7ext c7look 0 ⟨.num 5000⟩ 5000 4950 (by decide)
    (by decide) (by decide) (by decide)).1 (by decide)

/-! ## Sanitization invariance (claim C4): replacing every malformed numeric
field by an absent one leaves `run_validations` unchanged, i.e. a malformed
field only skips the checks depending on it. -/

/-- `_safe_number` cannot tell a malformed numeric value from an absent one. -/
theorem safeNumber_numOrNone (v : Val) : safeNumber (numOrNone v) = safeNumber v := by
  unfold numOrNone
  rcases h : safeNumber v with _ | q
  · simp [h, safeNumber]
  · simp [h]

/-- Sanitization keeps transaction dates. -/
theorem sanitizeTx_date (t : TxF) : (sanitizeTx t).date = t.date := rfl

/-- Sanitization keeps transaction descriptions. -/
theorem sanitizeTx_desc (t : TxF) : (sanitizeTx t).description = t.description := rfl

/-- Parsed amount of a sanitized transaction. -/
theorem safeNumber_sanitize_amount (t : TxF) :
    safeNumber (sanitizeTx t).amount = safeNumber t.amount := safeNumber_numOrNone _

/-- Parsed balance of a sanitized transaction. -/
theorem safeNumber_sanitize_balance (t : TxF) :
    safeNumber (sanitizeTx t).balance = safeNumber t.balance := safeNumber_numOrNone _

/-- Sanitization at the `currency` field. -/
theorem sanitizeNumeric_currency (ext : Extracted) :
    (sanitizeNumeric ext).currency = ext.currency := rfl

/-- Sanitization at the `currencyAlt` field. -/
theorem sanitizeNumeric_currencyAlt (ext : Extracted) :
    (sanitizeNumeric ext).currencyAlt = ext.currencyAlt := rfl

/-- Sanitization at the `opening` field. -/
theorem sanitizeNumeric_opening (ext : Extracted) :
    (sanitizeNumeric ext).opening = numOrNone ext.opening := rfl

/-- Sanitization at the `closing` field. -/
theorem sanitizeNumeric_closing (ext : Extracted) :
    (sanitizeNumeric ext).closing = numOrNone ext.closing := rfl

/-- Sanitization at the `openingRaw` field. -/
theorem sanitizeNumeric_openingRaw (ext : Extracted) :
    (sanitizeNumeric ext).openingRaw = ext.openingRaw := rfl

/-- Sanitization at the `closingRaw` field. -/
theorem sanitizeNumeric_closingRaw (ext : Extracted) :
    (sanitizeNumeric ext).closingRaw = ext.closingRaw := rfl

/-- Sanitization at the `bankName` field. -/
theorem sanitizeNumeric_bankName (ext : Extracted) :
    (sanitizeNumeric ext).bankName = ext.bankName := rfl

/-- Sanitization at the `accountNumber` field. -/
theorem sanitizeNumeric_accountNumber (ext : Extracted) :
    (sanitizeNumeric ext).accountNumber = ext.accountNumber := rfl

/-- Sanitization at the `subtotal` field. -/
theorem sanitizeNumeric_subtotal (ext : Extracted) :
    (sanitizeNumeric ext).subtotal = numOrNone ext.subtotal := rfl

/-- Sanitization at the `tax` field. -/
theorem sanitizeNumeric_tax (ext : Extracted) :
    (sanitizeNumeric ext).tax = numOrNone ext.tax := rfl

/-- Sanitization at the `total` field. -/
theorem sanitizeNumeric_total (ext : Extracted) :
    (sanitizeNumeric ext).total = numOrNone ext.total := rfl

/-- Sanitization at the `invoiceDate` field. -/
theorem sanitizeNumeric_invoiceDate (ext : Extracted) :
    (sanitizeNumeric ext).invoiceDate = ext.invoiceDate := rfl

/-- Sanitization at the `dueDate` field. -/
theorem sanitizeNumeric_dueDate (ext : Extracted) :
    (sanitizeNumeric ext).dueDate = ext.dueDate := rfl

/-- Sanitization at the `grossSalary` field. -/
theorem sanitizeNumeric_grossSalary (ext : Extracted) :
    (sanitizeNumeric ext).grossSalary = numOrNone ext.grossSalary := rfl

/-- Sanitization at the `netSalary` field. -/
theorem sanitizeNumeric_netSalary (ext : Extracted) :
    (sanitizeNumeric ext).netSalary = numOrNone ext.netSalary := rfl

/-- Sanitization at the `deductions` field. -/
theorem sanitizeNumeric_deductions (ext : Extracted) :
    (sanitizeNumeric ext).deductions = numOrNone ext.deductions := rfl

/-- Sanitization at the `transactions` field. -/
theorem sanitizeNumeric_transactions (ext : Extracted) :
    (sanitizeNumeric ext).transactions = ext.transactions.map sanitizeTx := rfl

/-- `tx_amounts` is sanitize-invariant. -/
theorem txAmounts_sanitize (txs : List TxF) :
    txAmounts (txs.map sanitizeTx) = txAmounts txs := by
  simp only [txAmounts, List.filterMap_map, Function.comp_def, safeNumber_sanitize_amount]

/-- `tx_balances` is sanitize-invariant. -/
theorem txBalances_sanitize (txs : List TxF) :
    txBalances (txs.map sanitizeTx) = txBalances txs := by
  simp only [txBalances, List.map_map, Function.comp_def, safeNumber_sanitize_balance]

/-- `tx_dates` is sanitize-invariant. -/
theorem txDates_sanitize (txs : List TxF) :
    txDates (txs.map sanitizeTx) = txDates txs := by
  simp only [txDates, List.map_map, Function.comp_def, sanitizeTx_date]

/-- `tx_date_raw` is sanitize-invariant. -/
theorem txDateRaw_sanitize (txs : List TxF) :
    txDateRaw (txs.map sanitizeTx) = txDateRaw txs := by
  simp only [txDateRaw, List.map_map, Function.comp_def, sanitizeTx_date]

/-- `tx_descriptions` is sanitize-invariant. -/
theorem txDescs_sanitize (txs : List TxF) :
    txDescs (txs.map sanitizeTx) = txDescs txs := by
  simp only [txDescs, List.map_map, Function.comp_def, sanitizeTx_desc]

/-- `tx_total` is sanitize-invariant. -/
theorem txTotal_sanitize (txs : List TxF) :
    txTotal (txs.map sanitizeTx) = txTotal txs := by
  simp only [txTotal, txAmounts_sanitize]

/-- The date-sequence violation count is sanitize-invariant. -/
theorem dateViolations_sanitize (txs : List TxF) :
    dateViolations (txs.map sanitizeTx) = dateViolations txs := by
  simp only [dateViolations, List.foldl_map, sanitizeTx_date]

/-- The running-balance mismatch count is sanitize-invariant. -/
theorem runningMismatches_sanitize (txs : List TxF) :
    runningMismatches (txs.map sanitizeTx) = runningMismatches txs := by
  simp only [runningMismatches, List.foldl_map, safeNumber_sanitize_amount,
    safeNumber_sanitize_balance]

/-- The date-sequence detector is sanitize-invariant. -/
theorem dateSeqBlock_sanitize (op cl : Option ℚ) (txs : List TxF) :
    dateSeqBlock op cl (txs.map sanitizeTx) = dateSeqBlock op cl txs := by
  unfold dateSeqBlock
  simp only [dateViolations_sanitize, List.map_eq_nil_iff]

/-- The continuity error detector is sanitize-invariant. -/
theorem contErrBlock_sanitize (op cl : Option ℚ) (txs : List TxF) :
    contErrBlock op cl (txs.map sanitizeTx) = contErrBlock op cl txs := by
  unfold contErrBlock
  simp only [txTotal_sanitize, List.map_eq_nil_iff, List.length_map]

/-- The continuity warning detector is sanitize-invariant. -/
theorem contWarnBlock_sanitize (op cl : Option ℚ) (txs : List TxF) :
    contWarnBlock op cl (txs.map sanitizeTx) = contWarnBlock op cl txs := by
  unfold contWarnBlock
  simp only [txTotal_sanitize, List.map_eq_nil_iff, List.length_map]

/-- The invalid-date detector is sanitize-invariant. -/
theorem invalidDatesBlock_sanitize (txs : List TxF) :
    invalidDatesBlock (txs.map sanitizeTx) = invalidDatesBlock txs := by
  simp only [invalidDatesBlock, List.filter_map, List.length_map, Function.comp_def,
    sanitizeTx_date]

/-- The running-balance detector is sanitize-invariant. -/
theorem runningBlock_sanitize (txs : List TxF) :
    runningBlock (txs.map sanitizeTx) = runningBlock txs := by
  simp only [runningBlock, runningMismatches_sanitize]

/-- The last non-missing balance is sanitize-invariant. -/
theorem lastSomeBalance_sanitize (txs : List TxF) :
    lastSomeBalance (txs.map sanitizeTx) = lastSomeBalance txs := by
  simp only [lastSomeBalance, txBalances_sanitize]

/-- The summary-injection detector is sanitize-invariant. -/
theorem closingVsLastBlock_sanitize (cl : Option ℚ) (txs : List TxF) :
    closingVsLastBlock cl (txs.map sanitizeTx) = closingVsLastBlock cl txs := by
  unfold closingVsLastBlock
  rw [lastSomeBalance_sanitize]

/-- The magnitude detector is sanitize-invariant. -/
theorem magnitudeBlock_sanitize (f : ℚ) (cl : Option ℚ) (txs : List TxF) :
    magnitudeBlock f cl (txs.map sanitizeTx) = magnitudeBlock f cl txs := by
  unfold magnitudeBlock
  rw [txBalances_sanitize]

/-- The leading digits are sanitize-invariant. -/
theorem leadDigits_sanitize (txs : List TxF) :
    leadDigits (txs.map sanitizeTx) = leadDigits txs := by
  simp only [leadDigits, txAmounts_sanitize]

/-- `total_leading` is sanitize-invariant. -/
theorem totalLeading_sanitize (txs : List TxF) :
    totalLeading (txs.map sanitizeTx) = totalLeading txs := by
  simp only [totalLeading, leadDigits_sanitize]

/-- The leading-digit-1 count is sanitize-invariant. -/
theorem onesLeading_sanitize (txs : List TxF) :
    onesLeading (txs.map sanitizeTx) = onesLeading txs := by
  simp only [onesLeading, leadDigits_sanitize]

/-- The Benford ratio is sanitize-invariant. -/
theorem benfordRatio_sanitize (txs : List TxF) :
    benfordRatio (txs.map sanitizeTx) = benfordRatio txs := by
  simp only [benfordRatio, onesLeading_sanitize, totalLeading_sanitize]

/-- The Benford detector is sanitize-invariant. -/
theorem benfordBlock_sanitize (txs : List TxF) :
    benfordBlock (txs.map sanitizeTx) = benfordBlock txs := by
  simp only [benfordBlock, benfordRatio_sanitize, totalLeading_sanitize]

/-- The round-number detector is sanitize-invariant. -/
theorem roundBlock_sanitize (cur : String) (ru mr : ℚ) (txs : List TxF) :
    roundBlock cur ru mr (txs.map sanitizeTx) = roundBlock cur ru mr txs := by
  simp only [roundBlock, txAmounts_sanitize]

/-- The structuring detector is sanitize-invariant. -/
theorem structuringBlock_sanitize (txs : List TxF) :
    structuringBlock (txs.map sanitizeTx) = structuringBlock txs := by
  simp only [structuringBlock, txAmounts_sanitize]

/-- The velocity tally is sanitize-invariant. -/
theorem velocityTally_sanitize (txs : List TxF) :
    velocityTally (txs.map sanitizeTx) = velocityTally txs := by
  simp only [velocityTally, txAmounts_sanitize, txDates_sanitize, txDescs_sanitize]

/-- The velocity detector is sanitize-invariant. -/
theorem velocityBlock_sanitize (txs : List TxF) :
    velocityBlock (txs.map sanitizeTx) = velocityBlock txs := by
  simp only [velocityBlock, velocityTally_sanitize]

/-- The ghost-lifestyle detector is sanitize-invariant. -/
theorem ghostBlock_sanitize (txs : List TxF) :
    ghostBlock (txs.map sanitizeTx) = ghostBlock txs := by
  simp only [ghostBlock, txAmounts_sanitize]

/-- The negative-balance detector is sanitize-invariant. -/
theorem negBalBlock_sanitize (txs : List TxF) :
    negBalBlock (txs.map sanitizeTx) = negBalBlock txs := by
  simp only [negBalBlock, txBalances_sanitize]

/-- The mixed-date-format detector is sanitize-invariant. -/
theorem mixedBlock_sanitize (txs : List TxF) :
    mixedBlock (txs.map sanitizeTx) = mixedBlock txs := by
  simp only [mixedBlock, txDateRaw_sanitize]

/-- The unique-description count is sanitize-invariant. -/
theorem uniqueDescCount_sanitize (txs : List TxF) :
    uniqueDescCount (txs.map sanitizeTx) = uniqueDescCount txs := by
  simp only [uniqueDescCount, txDescs_sanitize]

/-- The repetitive-description detector is sanitize-invariant. -/
theorem synth1Block_sanitize (txs : List TxF) :
    synth1Block (txs.map sanitizeTx) = synth1Block txs := by
  simp only [synth1Block, uniqueDescCount_sanitize, txDescs_sanitize]

/-- The description-diversity detector is sanitize-invariant. -/
theorem synth2Block_sanitize (txs : List TxF) :
    synth2Block (txs.map sanitizeTx) = synth2Block txs := by
  simp only [synth2Block, uniqueDescCount_sanitize, txDescs_sanitize]

/-- The whole transaction section is sanitize-invariant. -/
theorem txSection_sanitize (cur : String) (prof : CurrencyProfile) (cl : Option ℚ)
    (txs : List TxF) :
    txSection cur prof cl (txs.map sanitizeTx) = txSection cur prof cl txs := by
  simp only [txSection, invalidDatesBlock_sanitize, runningBlock_sanitize,
    closingVsLastBlock_sanitize, magnitudeBlock_sanitize, benfordBlock_sanitize,
    roundBlock_sanitize, structuringBlock_sanitize, velocityBlock_sanitize,
    ghostBlock_sanitize, negBalBlock_sanitize, mixedBlock_sanitize,
    synth1Block_sanitize, synth2Block_sanitize]

/-- Currency detection is sanitize-invariant (it reads only string fields). -/
theorem detectCurrency_sanitize (ext : Extracted) :
    detectCurrency (sanitizeNumeric ext) = detectCurrency ext := by
  simp only [detectCurrency, sanitizeNumeric_currency, sanitizeNumeric_currencyAlt,
    sanitizeNumeric_openingRaw, sanitizeNumeric_closingRaw, sanitizeNumeric_bankName,
    sanitizeNumeric_transactions, ← List.map_take, List.foldl_map, sanitizeTx_desc]

/-- The bank-statement errors are sanitize-invariant. -/
theorem bankErrors_sanitize (ext : Extracted) :
    bankErrors (sanitizeNumeric ext) = bankErrors ext := by
  simp only [bankErrors, sanitizeNumeric_opening, sanitizeNumeric_closing,
    sanitizeNumeric_transactions, safeNumber_numOrNone, contErrBlock_sanitize]

/-- The bank-statement warnings are sanitize-invariant. -/
theorem bankWarnings_sanitize (ext : Extracted) :
    bankWarnings (sanitizeNumeric ext) = bankWarnings ext := by
  simp only [bankWarnings, detectCurrency_sanitize, sanitizeNumeric_opening,
    sanitizeNumeric_closing, sanitizeNumeric_transactions, safeNumber_numOrNone,
    dateSeqBlock_sanitize, contWarnBlock_sanitize, txSection_sanitize,
    List.map_eq_nil_iff]

/-- The cross-document consistency check is sanitize-invariant. -/
theorem bankConsistency_sanitize (ext : Extracted)
    (look : Val → Option PrevStatement) :
    bankConsistency (sanitizeNumeric ext) look = bankConsistency ext look := by
  unfold bankConsistency
  simp only [sanitizeNumeric_accountNumber, sanitizeNumeric_opening,
    safeNumber_numOrNone]

/-- The invoice errors are sanitize-invariant. -/
theorem invoiceErrors_sanitize (ext : Extracted) :
    invoiceErrors (sanitizeNumeric ext) = invoiceErrors ext := by
  unfold invoiceErrors
  simp only [sanitizeNumeric_subtotal, sanitizeNumeric_tax, sanitizeNumeric_total,
    sanitizeNumeric_invoiceDate, sanitizeNumeric_dueDate, safeNumber_numOrNone]

/-- The invoice warnings are sanitize-invariant. -/
theorem invoiceWarnings_sanitize (ext : Extracted) (now : ℕ) :
    invoiceWarnings (sanitizeNumeric ext) now = invoiceWarnings ext now := by
  unfold invoiceWarnings
  rw [sanitizeNumeric_invoiceDate]

/-- The payslip errors are sanitize-invariant. -/
theorem payslipErrors_sanitize (ext : Extracted) :
    payslipErrors (sanitizeNumeric ext) = payslipErrors ext := by
  unfold payslipErrors
  simp only [sanitizeNumeric_grossSalary, sanitizeNumeric_netSalary,
    safeNumber_numOrNone]

/-- The payslip warnings are sanitize-invariant. -/
theorem payslipWarnings_sanitize (ext : Extracted) :
    payslipWarnings (sanitizeNumeric ext) = payslipWarnings ext := by
  unfold payslipWarnings
  simp only [sanitizeNumeric_grossSalary, sanitizeNumeric_netSalary,
    sanitizeNumeric_deductions, safeNumber_numOrNone]

/-- C4: `run_validations` is total by construction (it is a function into
error/warning/consistency triples, with every fallible source operation
modelled by an `Option`-valued function exactly where the source catches the
exception), and a malformed numeric field behaves exactly like an absent
one: sanitizing every non-numeric balance, amount and total to `None` leaves
the result unchanged for every document type, so a malformed field only
skips the checks that depend on it. -/
theorem run_validations_skips_malformed (docType : String) (ext : Extracted)
    (look : Val → Option PrevStatement) (now : ℕ) :
    runValidations docType (sanitizeNumeric ext) look now =
      runValidations docType ext look now := by
  simp only [runValidations, invoiceErrors_sanitize, bankErrors_sanitize,
    payslipErrors_sanitize, invoiceWarnings_sanitize, bankWarnings_sanitize,
    payslipWarnings_sanitize, bankConsistency_sanitize]
